import Mathlib

/-!
Parking lot server: a verification development

Shallow embedding of `server.js` (the Express handlers for registration, login,
cell inventory, parked vehicles and history) and of the migration script
`actualizarfechaingreso.js`.

The relational store (MySQL behind Sequelize) is a record of tables.  Every
store call is a computation in `StoreM`, which threads the store explicitly and
may reject (a rejected promise, thrown into the handler's `catch`).  Timestamps
are milliseconds since the epoch (`Int`); a nullable column is an `Option`.
-/

namespace Parking

/-! ## Records of the store -/

/-- Row of the `Perfil` model (declared in `./models`, not among the sources),
with the columns `server.js` uses: a role, looked up by `nombre`. -/
structure Perfil where
  id : Nat
  nombre : String
  deriving DecidableEq, Repr

/-- Row of the `Usuario` model (declared in `./models`, not among the sources),
with the columns `server.js` reads and writes; the two surnames may be NULL, as
the `|| ''` of the handlers expects. -/
structure Usuario where
  id : Nat
  primer_nombre : String
  segundo_nombre : String
  primer_apellido : Option String
  segundo_apellido : Option String
  tipo_documento : String
  numero_documento : String
  correo : String
  clave : String
  celular : String
  PERFIL_id : Nat
  deriving DecidableEq, Repr

/-- Modelled from the spec: row of the `Vehiculo` model, whose declaration in
`./models` is not among the sources: identity, unique plate number and
vehicle-type category (section 3); `server.js` reads `placa`. -/
structure Vehiculo where
  id : Nat
  placa : String
  tipo : String
  deriving DecidableEq, Repr

/-- Row of the `Celda` model (declared in `./models`, not among the sources),
with the columns `server.js` reads. -/
structure Celda where
  id : Nat
  nombre : String
  tipoVehiculo : String
  estado : String
  deriving DecidableEq, Repr

/-- Modelled from the spec: row of the `Entrada` model (a parking session),
whose declaration in `./models` is not among the sources: identity, vehicle
reference (by its unique plate), cell reference (by id), entry timestamp set at
creation, exit timestamp NULL while the session is open, and duration NULL
while open (section 3); `server.js` reads `id`, `fecha_ingreso`, `fecha_salida`
and the two relations. -/
structure Entrada where
  id : Nat
  vehiculo : Option String
  CELDA_id : Option Nat
  fecha_ingreso : Int
  fecha_salida : Option Int
  tiempo_estadia : Option Int
  deriving DecidableEq, Repr

/-- Modelled from the spec: row of the `HistorialParqueo` model, whose declaration
in `./models` is not among the sources: the columns `server.js` reads, with
nullable references to user, vehicle and cell (section 4.4); `fecha_ingreso` may
be NULL, which the migration script repairs. -/
structure HistorialParqueo where
  id : Nat
  USUARIO_id : Option Nat
  vehiculo : Option String
  CELDA_id : Option Nat
  fecha_ingreso : Option Int
  fecha_salida : Option Int
  tiempo_estadia : Option Int
  deriving DecidableEq, Repr

/-- Modelled from the spec: row of the `PicoPlaca` model, whose declaration in
`./models` is not among the sources: a ban by vehicle type, last plate digit and
day of the week, optionally limited to a window of seconds within the day
(section 3). -/
structure PicoPlaca where
  tipoVehiculo : String
  digito : Nat
  dia : Nat
  ventana : Option (Nat × Nat)
  deriving DecidableEq, Repr

/-- The persistent state: whether MySQL is reachable, and the tables. -/
structure Store where
  conectado : Bool
  perfiles : List Perfil
  usuarios : List Usuario
  vehiculos : List Vehiculo
  celdas : List Celda
  entradas : List Entrada
  historial : List HistorialParqueo
  reglas : List PicoPlaca
  deriving DecidableEq, Repr

/-! ## Store computations -/

/-- A store call: it receives the store, returns a value or rejects, and hands
back the store it leaves behind. -/
def StoreM (α : Type) : Type := Store → Except String α × Store

/-- Resolve with a value, leaving the store alone. -/
def StoreM.pure {α : Type} (a : α) : StoreM α := fun s => (Except.ok a, s)

/-- Sequence two store calls (`await`); a rejection skips the continuation. -/
def StoreM.bind {α β : Type} (m : StoreM α) (f : α → StoreM β) : StoreM β :=
  fun s =>
    match m s with
    | (Except.ok a, s1) => f a s1
    | (Except.error e, s1) => (Except.error e, s1)

instance : Monad StoreM where
  pure := StoreM.pure
  bind := StoreM.bind

/-- A read query: rejects when the database is unreachable, otherwise answers
from the current tables; never writes. -/
def consulta {α : Type} (f : Store → α) : StoreM α :=
  fun s => if s.conectado then (Except.ok (f s), s) else (Except.error "SequelizeConnectionError", s)

/-- A write statement: rejects when the database is unreachable, otherwise
applies the change and returns the result. -/
def escritura {α : Type} (f : Store → α × Store) : StoreM α :=
  fun s => if s.conectado then (Except.ok (f s).1, (f s).2) else (Except.error "SequelizeConnectionError", s)

/-! ## Responses -/

/-- Entry of `detalles` in the answer of `GET /api/celdas/estado`. -/
structure DetalleCelda where
  id : Nat
  nombre : String
  tipo : String
  estado : String
  deriving DecidableEq, Repr

/-- Body of the answer of `GET /api/celdas/estado`. -/
structure EstadoCeldas where
  ocupadas : Nat
  libres : Nat
  total : Nat
  detalles : List DetalleCelda
  deriving DecidableEq, Repr

/-- One record of `GET /api/parqueo/estacionados`. -/
structure Estacionado where
  id : Nat
  placa : String
  celda : String
  horaIngreso : String
  deriving DecidableEq, Repr

/-- One flattened record of `GET /api/historial`. -/
structure RegistroHistorial where
  id : Nat
  fecha_ingreso : Option Int
  fecha_salida : Option Int
  tiempo_estadia : Option Int
  placa_vehiculo : String
  nombre_celda : String
  usuario_nombre : String
  deriving DecidableEq, Repr

/-- Body of a successful `POST /api/login`. -/
structure DatosLogin where
  mensaje : String
  id : Nat
  primer_nombre : String
  apellidos : String
  correo : String
  rol : String
  identificacion : String
  telefono : String
  deriving DecidableEq, Repr

/-- JSON bodies the handlers send. -/
inductive Cuerpo where
  | mensaje (m : String)
  | registro (m : String) (usuario : Usuario)
  | login (d : DatosLogin)
  | estadoCeldas (e : EstadoCeldas)
  | estacionados (l : List Estacionado)
  | historial (l : List RegistroHistorial)
  deriving DecidableEq, Repr

/-- An HTTP answer: status code and JSON body (`res.json` alone is status 200). -/
structure Respuesta where
  status : Nat
  cuerpo : Cuerpo
  deriving DecidableEq, Repr

/-- Run the `try` block of a handler; a rejection lands in `catch`, which answers
500 with the handler's fixed message. -/
def manejar (cuerpo : StoreM Respuesta) (mensaje500 : String) (s : Store) : Respuesta × Store :=
  match cuerpo s with
  | (Except.ok r, s1) => (r, s1)
  | (Except.error _, s1) => (⟨500, Cuerpo.mensaje mensaje500⟩, s1)

/-! ## JavaScript string helpers -/

/-- White space and line terminators removed by `String.prototype.trim`. -/
def esEspacioJS (c : Char) : Bool :=
  let n := c.toNat
  n == 0x09 || n == 0x0A || n == 0x0B || n == 0x0C || n == 0x0D || n == 0x20 ||
  n == 0xA0 || n == 0x1680 || (0x2000 ≤ n && n ≤ 0x200A) || n == 0x2028 ||
  n == 0x2029 || n == 0x202F || n == 0x205F || n == 0x3000 || n == 0xFEFF

/-- The method `trim`: drop white space at both ends. -/
def jsTrim (s : String) : String :=
  String.mk ((s.data.dropWhile esEspacioJS).reverse.dropWhile esEspacioJS).reverse

/-- The expression `x || ''` on a nullable string: NULL and the empty string
both give the empty string. -/
def oVacio (x : Option String) : String :=
  match x with
  | some v => v
  | none => ""

/-! ## GET /api/celdas/estado -/

/-- The call `Celda.findAll()`. -/
def Celda.findAll : StoreM (List Celda) := consulta (fun s => s.celdas)

/-- The object sent by `GET /api/celdas/estado` for the cells fetched. -/
def resumenCeldas (celdas : List Celda) : EstadoCeldas :=
  { ocupadas := (celdas.filter (fun celda => celda.estado == "ocupado")).length
    libres := (celdas.filter (fun celda => celda.estado == "libre")).length
    total := celdas.length
    detalles := celdas.map (fun celda =>
      { id := celda.id, nombre := celda.nombre, tipo := celda.tipoVehiculo, estado := celda.estado }) }

/-- Handler of `GET /api/celdas/estado`. -/
def getCeldasEstado : Store → Respuesta × Store :=
  manejar (do
    let celdas ← Celda.findAll
    pure ⟨200, Cuerpo.estadoCeldas (resumenCeldas celdas)⟩)
    "Error interno del servidor al obtener el estado de las celdas."

/-! ## GET /api/parqueo/estacionados -/

/-- An `Entrada` instance as `findAll` returns it with its two `include`s
resolved (`vehiculoInfo` with `placa`, `celdaInfo` with `nombre`). -/
structure EntradaInfo where
  id : Nat
  fecha_ingreso : Int
  fecha_salida : Option Int
  vehiculoInfo : Option Vehiculo
  celdaInfo : Option Celda
  deriving DecidableEq, Repr

/-- The left outer joins of an `Entrada` row with its vehicle and its cell. -/
def incluirEntrada (s : Store) (e : Entrada) : EntradaInfo :=
  { id := e.id
    fecha_ingreso := e.fecha_ingreso
    fecha_salida := e.fecha_salida
    vehiculoInfo := e.vehiculo.bind (fun p => s.vehiculos.find? (fun v => v.placa == p))
    celdaInfo := e.CELDA_id.bind (fun c => s.celdas.find? (fun x => x.id == c)) }

/-- The call `Entrada.findAll` with `where: fecha_salida: null` and the two
includes. -/
def Entrada.findAllEstacionados : StoreM (List EntradaInfo) :=
  consulta (fun s => (s.entradas.filter (fun e => e.fecha_salida.isNone)).map (incluirEntrada s))

/-- The record built for one parked vehicle; `toLocaleString` is the rendering
of a date in the server locale. -/
def formatearEstacionado (toLocaleString : Int → String) (entrada : EntradaInfo) : Estacionado :=
  { id := entrada.id
    placa := match entrada.vehiculoInfo with
      | some v => v.placa
      | none => "N/A"
    celda := match entrada.celdaInfo with
      | some c => c.nombre
      | none => "N/A"
    horaIngreso := toLocaleString entrada.fecha_ingreso }

/-- Handler of `GET /api/parqueo/estacionados`. -/
def getEstacionados (toLocaleString : Int → String) : Store → Respuesta × Store :=
  manejar (do
    let vehiculosEstacionados ← Entrada.findAllEstacionados
    pure ⟨200, Cuerpo.estacionados (vehiculosEstacionados.map (formatearEstacionado toLocaleString))⟩)
    "Error interno del servidor al obtener los vehículos estacionados."

/-! ## GET /api/historial -/

/-- A `HistorialParqueo` instance as `findAll` returns it with its three
`include`s resolved. -/
structure HistorialItem where
  id : Nat
  fecha_ingreso : Option Int
  fecha_salida : Option Int
  tiempo_estadia : Option Int
  usuario : Option Usuario
  vehiculo : Option Vehiculo
  celda : Option Celda
  deriving DecidableEq, Repr

/-- The left outer joins of a history row with its user, vehicle and cell. -/
def incluirHistorial (s : Store) (h : HistorialParqueo) : HistorialItem :=
  { id := h.id
    fecha_ingreso := h.fecha_ingreso
    fecha_salida := h.fecha_salida
    tiempo_estadia := h.tiempo_estadia
    usuario := h.USUARIO_id.bind (fun u => s.usuarios.find? (fun x => x.id == u))
    vehiculo := h.vehiculo.bind (fun p => s.vehiculos.find? (fun v => v.placa == p))
    celda := h.CELDA_id.bind (fun c => s.celdas.find? (fun x => x.id == c)) }

/-- Order of a nullable timestamp column, NULL below every value (MySQL). -/
def fechaLe (a b : Option Int) : Bool :=
  match a, b with
  | none, _ => true
  | some _, none => false
  | some x, some y => decide (x ≤ y)

/-- The relation `ORDER BY fecha_ingreso DESC` sorts by: the first row enters no
earlier than the second. -/
def masReciente (a b : HistorialParqueo) : Prop := fechaLe b.fecha_ingreso a.fecha_ingreso = true

instance : DecidableRel masReciente := fun a b =>
  inferInstanceAs (Decidable (fechaLe b.fecha_ingreso a.fecha_ingreso = true))

/-- The call `HistorialParqueo.findAll` with its includes and
`order: fecha_ingreso DESC`. -/
def HistorialParqueo.findAll : StoreM (List HistorialItem) :=
  consulta (fun s => (s.historial.insertionSort masReciente).map (incluirHistorial s))

/-- The flattened record built for one history item. -/
def formatearHistorial (item : HistorialItem) : RegistroHistorial :=
  { id := item.id
    fecha_ingreso := item.fecha_ingreso
    fecha_salida := item.fecha_salida
    tiempo_estadia := item.tiempo_estadia
    placa_vehiculo := match item.vehiculo with
      | some v => v.placa
      | none => "N/A"
    nombre_celda := match item.celda with
      | some c => c.nombre
      | none => "N/A"
    usuario_nombre := match item.usuario with
      | some u => jsTrim (u.primer_nombre ++ " " ++ oVacio u.primer_apellido)
      | none => "N/A" }

/-- The `try` block of `GET /api/historial` once `findAll` has answered. -/
def responderHistorial (historial : List HistorialItem) : Respuesta :=
  ⟨200, Cuerpo.historial (historial.map formatearHistorial)⟩

/-- Handler of `GET /api/historial` over a given `findAll` query. -/
def getHistorialCon (findAll : StoreM (List HistorialItem)) : Store → Respuesta × Store :=
  manejar (do
    let historial ← findAll
    pure (responderHistorial historial))
    "Error interno del servidor al obtener el historial."

/-- Handler of `GET /api/historial`. -/
def getHistorial : Store → Respuesta × Store :=
  getHistorialCon HistorialParqueo.findAll

/-! ## POST /api/registro -/

/-- The body of a registration request as the handler destructures it: each
field is `undefined` (`none`) when the body does not carry it and a string
otherwise, as `upload.none()` parses a form.  The handler validates none of
them. -/
structure SolicitudRegistro where
  primer_nombre : Option String
  segundo_nombre : Option String
  primer_apellido : Option String
  segundo_apellido : Option String
  tipo_documento : Option String
  numero_documento : Option String
  correo : Option String
  clave : Option String
  celular : Option String
  rol : Option String
  deriving DecidableEq, Repr

/-- A promise that rejects with an error and leaves the store alone. -/
def rechazar {α : Type} (error : String) : StoreM α := fun s => (Except.error error, s)

/-- The call `Usuario.findOne` with `Op.or` over `correo` and
`numero_documento`; an `undefined` value in the `where` makes the query builder
throw. -/
def Usuario.findOneCorreoODocumento (correo numero_documento : Option String) :
    StoreM (Option Usuario) :=
  match correo, numero_documento with
  | some c, some d =>
    consulta (fun s => s.usuarios.find? (fun u => u.correo == c || u.numero_documento == d))
  | _, _ => rechazar "WHERE parameter has invalid undefined value"

/-- The call `Perfil.findOne` by `nombre`; an `undefined` name makes the query
builder throw. -/
def Perfil.findOneNombre (nombre : Option String) : StoreM (Option Perfil) :=
  match nombre with
  | some n => consulta (fun s => s.perfiles.find? (fun p => p.nombre == n))
  | none => rechazar "WHERE parameter has invalid undefined value"

/-- The function `getPerfilId`: the id of the profile with that name, or null; a
failure of the lookup is rethrown under its own message. -/
def getPerfilId (tipoUsuario : Option String) : StoreM (Option Nat) :=
  fun s =>
    match (do
      let perfil ← Perfil.findOneNombre tipoUsuario
      pure (match perfil with
        | some p => some p.id
        | none => none) : StoreM (Option Nat)) s with
    | (Except.ok r, s1) => (Except.ok r, s1)
    | (Except.error _, s1) => (Except.error "No se pudo obtener el ID del perfil.", s1)

/-- The test `!perfilId`: true for null and for the number 0. -/
def noPerfilId (perfilId : Option Nat) : Bool :=
  match perfilId with
  | none => true
  | some n => n == 0

/-- The call `bcrypt.hash(clave, 10)`: `hash` is the digest of a string; a value
that is not a string is rejected (Illegal arguments). -/
def bcryptHash (hash : String → String) (clave : Option String) : StoreM String :=
  match clave with
  | some c => pure (hash c)
  | none => rechazar "Illegal arguments: undefined, number"

/-- The call `bcrypt.compare(clave, hash)`: `compare` decides a string against a
digest; a value that is not a string is rejected (Illegal arguments). -/
def bcryptCompare (compare : String → String → Bool) (clave : Option String) (hash : String) :
    StoreM Bool :=
  match clave with
  | some c => pure (compare c hash)
  | none => rechazar "Illegal arguments: undefined, string"

/-- The next AUTO_INCREMENT value of the `Usuario` table. -/
def Usuario.siguienteId (usuarios : List Usuario) : Nat :=
  (usuarios.map (fun u => u.id)).foldr max 0 + 1

/-- The call `Usuario.create`: insert one row and return it.  The columns typed
`String` in `Usuario` are NOT NULL, so a row lacking one of them is rejected by
the validation of the model; the two surnames are stored as given. -/
def Usuario.create (req : SolicitudRegistro) (hashedPassword : String) (perfilId : Nat) :
    StoreM Usuario :=
  match req.primer_nombre, req.segundo_nombre, req.tipo_documento, req.numero_documento,
      req.correo, req.celular with
  | some primer_nombre, some segundo_nombre, some tipo_documento, some numero_documento,
      some correo, some celular =>
    escritura (fun s =>
      let nuevoUsuario : Usuario :=
        { id := Usuario.siguienteId s.usuarios
          primer_nombre := primer_nombre
          segundo_nombre := segundo_nombre
          primer_apellido := req.primer_apellido
          segundo_apellido := req.segundo_apellido
          tipo_documento := tipo_documento
          numero_documento := numero_documento
          correo := correo
          clave := hashedPassword
          celular := celular
          PERFIL_id := perfilId }
      (nuevoUsuario, { s with usuarios := s.usuarios ++ [nuevoUsuario] }))
  | _, _, _, _, _, _ => rechazar "notNull Violation"

/-- Handler of `POST /api/registro`; `hash` is the digest `bcrypt.hash` computes
for a string. -/
def postRegistro (hash : String → String) (req : SolicitudRegistro) : Store → Respuesta × Store :=
  manejar (do
    let usuarioExistente ← Usuario.findOneCorreoODocumento req.correo req.numero_documento
    match usuarioExistente with
    | some _ => pure ⟨409, Cuerpo.mensaje "El correo o el número de documento ya están registrados."⟩
    | none =>
      let hashedPassword ← bcryptHash hash req.clave
      let perfilId ← getPerfilId req.rol
      if noPerfilId perfilId then
        pure ⟨400, Cuerpo.mensaje "Rol de usuario inválido."⟩
      else
        let nuevoUsuario ← Usuario.create req hashedPassword (perfilId.getD 0)
        pure ⟨201, Cuerpo.registro "Usuario registrado con éxito." nuevoUsuario⟩)
    "Error interno del servidor durante el registro."

/-! ## POST /api/login -/

/-- A nullable string inside a template literal: NULL prints as `null`. -/
def enPlantilla (x : Option String) : String :=
  match x with
  | some v => v
  | none => "null"

/-- The call `Usuario.findOne` by `correo`, with the `perfil` include; an
`undefined` correo makes the query builder throw. -/
def Usuario.findOneCorreo (correo : Option String) : StoreM (Option (Usuario × Option Perfil)) :=
  match correo with
  | some c =>
    consulta (fun s =>
      match s.usuarios.find? (fun u => u.correo == c) with
      | some u => some (u, s.perfiles.find? (fun p => p.id == u.PERFIL_id))
      | none => none)
  | none => rechazar "WHERE parameter has invalid undefined value"

/-- Handler of `POST /api/login`; `correo` and `clave` are the two body fields
(`undefined` when absent) and `compare` is what `bcrypt.compare` decides for a
string. -/
def postLogin (compare : String → String → Bool) (correo clave : Option String) :
    Store → Respuesta × Store :=
  manejar (do
    let usuario ← Usuario.findOneCorreo correo
    match usuario with
    | none => pure ⟨401, Cuerpo.mensaje "Credenciales inválidas."⟩
    | some (usuario, perfil) =>
      let isMatch ← bcryptCompare compare clave usuario.clave
      if !isMatch then
        pure ⟨401, Cuerpo.mensaje "Credenciales inválidas."⟩
      else
        pure ⟨200, Cuerpo.login
          { mensaje := "Inicio de sesión exitoso."
            id := usuario.id
            primer_nombre := usuario.primer_nombre
            apellidos := jsTrim (enPlantilla usuario.primer_apellido ++ " " ++ oVacio usuario.segundo_apellido)
            correo := usuario.correo
            rol := match perfil with
              | some p => p.nombre
              | none => "Desconocido"
            identificacion := usuario.numero_documento
            telefono := usuario.celular }⟩)
    "Error interno del servidor durante el inicio de sesión."

/-! ## The migration script actualizarfechaingreso.js -/

/-- The call `sequelize.authenticate()`. -/
def authenticate : StoreM Unit := consulta (fun _ => ())

/-- The call `HistorialParqueo.update` setting `fecha_ingreso` where it is NULL;
it returns the number of affected rows. -/
def HistorialParqueo.updateFechaIngresoNula (ahora : Int) : StoreM Nat :=
  escritura (fun s =>
    ((s.historial.filter (fun h => h.fecha_ingreso.isNone)).length,
     { s with historial := s.historial.map (fun h =>
        if h.fecha_ingreso.isNone then { h with fecha_ingreso := some ahora } else h) }))

/-- The script `actualizarFechaIngreso` run at time `ahora`: the count it logs
(nothing when the `catch` branch ran) and the store it leaves; the `finally`
block only closes the connection of the script. -/
def actualizarFechaIngreso (ahora : Int) (s : Store) : Option Nat × Store :=
  match (do
    authenticate
    let registrosActualizados ← HistorialParqueo.updateFechaIngresoNula ahora
    pure registrosActualizados : StoreM Nat) s with
  | (Except.ok n, s1) => (some n, s1)
  | (Except.error _, s1) => (none, s1)

/-! ## The parking controller: entry and exit

`server.js` routes `POST /api/parqueo/entrada` and `POST /api/parqueo/salida` to
`parqueoController`, whose file is not among the sources.  Its operations are
modelled from sections 4.1 to 4.3, 6 and 7 of the specification, on the same
store the handlers above read. -/

/-- Modelled from the spec: the error kinds of section 7, for the missing
`parqueo.controller`. -/
inductive ErrorParqueo where
  | RestrictedPlate
  | NoFreeCell
  | DuplicateOpenSession
  | NoOpenSession
  | InvalidTimeOrdering
  | PersistenceUnavailable
  deriving DecidableEq, Repr

/-- Modelled from the spec: the input of `POST entrada` (section 6), for the
missing `parqueo.controller`. -/
structure SolicitudEntrada where
  placa : String
  tipoVehiculo : String
  timestamp : Int
  deriving DecidableEq, Repr

/-- Modelled from the spec: what an exit names, a plate or a session id
(section 6), for the missing `parqueo.controller`. -/
inductive Referencia where
  | placa (p : String)
  | sesion (id : Nat)
  deriving DecidableEq, Repr

/-- Modelled from the spec: the input of `POST salida` (section 6), for the
missing `parqueo.controller`. -/
structure SolicitudSalida where
  ref : Referencia
  timestamp : Int
  deriving DecidableEq, Repr

/-- Modelled from the spec: plates are kept trimmed and in upper case (section
3), for the missing `parqueo.controller`. -/
def normalizarPlaca (placa : String) : String := (jsTrim placa).toUpper

/-- Modelled from the spec: the last digit of a plate (section 4.1), for the
missing restriction evaluator. -/
def ultimoDigito (placa : String) : Option Nat :=
  match placa.data.getLast? with
  | some c => if c.isDigit then some (c.toNat - 48) else none
  | none => none

/-- Modelled from the spec: the day of the week of a timestamp, 0 for Sunday
(section 4.1; the epoch fell on a Thursday), for the missing restriction
evaluator. -/
def diaSemana (momento : Int) : Nat := ((momento / 86400000 + 4) % 7).toNat

/-- Modelled from the spec: the time of day of a timestamp in seconds (section
4.1), for the missing restriction evaluator. -/
def segundoDelDia (momento : Int) : Nat := ((momento % 86400000) / 1000).toNat

/-- Modelled from the spec: `isRestricted` of section 4.1, for the missing
restriction evaluator: among the rules for the vehicle type and the day of the
week, one matches when its digit is the last digit of the plate and, if it has a
time window, the time of day lies inside it. -/
def isRestricted (reglas : List PicoPlaca) (plate vehicleType : String) (momento : Int) : Bool :=
  (reglas.filter (fun r => r.tipoVehiculo == vehicleType && r.dia == diaSemana momento)).any
    (fun r => ultimoDigito plate == some r.digito &&
      (match r.ventana with
        | none => true
        | some (desde, hasta) =>
          decide (desde ≤ segundoDelDia momento) && decide (segundoDelDia momento ≤ hasta)))

/-- Modelled from the spec: the cell of lowest id in a list (the tie-break of
section 4.2), for the missing cell allocator. -/
def menorId : List Celda → Option Celda
  | [] => none
  | c :: cs =>
    match menorId cs with
    | none => some c
    | some m => if c.id ≤ m.id then some c else some m

/-- Modelled from the spec: the free cell of the requested category that
`allocate` selects (section 4.2), for the missing cell allocator. -/
def celdaLibre (celdas : List Celda) (vehicleType : String) : Option Celda :=
  menorId (celdas.filter (fun c => c.estado == "libre" && c.tipoVehiculo == vehicleType))

/-- Modelled from the spec: the update of the state column of the cell with a
given id, for the missing cell allocator. -/
def setEstado (celdaId : Nat) (estado : String) (celdas : List Celda) : List Celda :=
  celdas.map (fun c => if c.id == celdaId then { c with estado := estado } else c)

/-- Modelled from the spec: `allocate` of section 4.2, for the missing cell
allocator: select one free cell of the category and mark it occupied, or fail
with NoFreeCell. -/
def allocate (vehicleType : String) (s : Store) : Except ErrorParqueo Celda × Store :=
  match celdaLibre s.celdas vehicleType with
  | none => (Except.error ErrorParqueo.NoFreeCell, s)
  | some c => (Except.ok c, { s with celdas := setEstado c.id "ocupado" s.celdas })

/-- Modelled from the spec: `release` of section 4.2, for the missing cell
allocator: the cell goes back to free, also when it is free already. -/
def release (celdaId : Nat) (s : Store) : Store :=
  { s with celdas := setEstado celdaId "libre" s.celdas }

/-- Modelled from the spec: a session is open while its exit timestamp is NULL
(section 3), for the missing session ledger. -/
def abierta (e : Entrada) : Bool := e.fecha_salida.isNone

/-- Modelled from the spec: the identity given to a new session, the next
AUTO_INCREMENT value of the `Entrada` table, for the missing session ledger. -/
def Entrada.siguienteId (entradas : List Entrada) : Nat :=
  (entradas.map (fun e => e.id)).foldr max 0 + 1

/-- Modelled from the spec: `openSession` of section 4.3, for the missing session
ledger: fail with DuplicateOpenSession when the vehicle or the cell already has
an open session, otherwise append an open session. -/
def openSession (placa : String) (celda : Celda) (entryTime : Int) (s : Store) :
    Except ErrorParqueo Entrada × Store :=
  if s.entradas.any (fun e => abierta e && e.vehiculo == some placa) ||
      s.entradas.any (fun e => abierta e && e.CELDA_id == some celda.id) then
    (Except.error ErrorParqueo.DuplicateOpenSession, s)
  else
    let sesion : Entrada :=
      { id := Entrada.siguienteId s.entradas
        vehiculo := some placa
        CELDA_id := some celda.id
        fecha_ingreso := entryTime
        fecha_salida := none
        tiempo_estadia := none }
    (Except.ok sesion, { s with entradas := s.entradas ++ [sesion] })

/-- Modelled from the spec: whether a session is the one an exit reference names
(a plate or a session id, section 6), for the missing session ledger. -/
def coincide (ref : Referencia) (e : Entrada) : Bool :=
  match ref with
  | Referencia.placa p => e.vehiculo == some (normalizarPlaca p)
  | Referencia.sesion id => e.id == id

/-- Modelled from the spec: `closeSession` of section 4.3, for the missing session
ledger: locate the open session of the reference (NoOpenSession if none), compute
duration = exitTime - entryTime (InvalidTimeOrdering when negative, with no
mutation), set the exit timestamp and the duration, and release the cell. -/
def closeSession (ref : Referencia) (exitTime : Int) (s : Store) :
    Except ErrorParqueo Entrada × Store :=
  match s.entradas.find? (fun e => abierta e && coincide ref e) with
  | none => (Except.error ErrorParqueo.NoOpenSession, s)
  | some e =>
    let duration := exitTime - e.fecha_ingreso
    if duration < 0 then
      (Except.error ErrorParqueo.InvalidTimeOrdering, s)
    else
      let cerrada : Entrada := { e with fecha_salida := some exitTime, tiempo_estadia := some duration }
      let s1 : Store := { s with entradas := s.entradas.map (fun x => if x.id == e.id then cerrada else x) }
      (Except.ok cerrada,
        match e.CELDA_id with
        | some c => release c s1
        | none => s1)

/-- Modelled from the spec: the entry orchestration of section 4.3 behind
`parqueoController.registrarEntrada`: reject a restricted plate, otherwise
allocate a cell and open the session, releasing the cell again when the session
cannot be opened; the answer is the session id and the cell name. -/
def registrarEntrada (req : SolicitudEntrada) (s : Store) : Except ErrorParqueo (Nat × String) × Store :=
  if !s.conectado then
    (Except.error ErrorParqueo.PersistenceUnavailable, s)
  else if isRestricted s.reglas (normalizarPlaca req.placa) req.tipoVehiculo req.timestamp then
    (Except.error ErrorParqueo.RestrictedPlate, s)
  else
    match allocate req.tipoVehiculo s with
    | (Except.error err, s1) => (Except.error err, s1)
    | (Except.ok celda, s1) =>
      match openSession (normalizarPlaca req.placa) celda req.timestamp s1 with
      | (Except.ok sesion, s2) => (Except.ok (sesion.id, celda.nombre), s2)
      | (Except.error err, s2) => (Except.error err, release celda.id s2)

/-- Modelled from the spec: the exit operation of section 6 behind
`parqueoController.registrarSalida`; the answer is the session id and the
occupied duration. -/
def registrarSalida (req : SolicitudSalida) (s : Store) : Except ErrorParqueo (Nat × Int) × Store :=
  if !s.conectado then
    (Except.error ErrorParqueo.PersistenceUnavailable, s)
  else
    match closeSession req.ref req.timestamp s with
    | (Except.ok sesion, s1) => (Except.ok (sesion.id, sesion.tiempo_estadia.getD 0), s1)
    | (Except.error err, s1) => (Except.error err, s1)

/-- The stores reachable from `s0` by completed entry and exit operations, the
database going down or coming back in between. -/
inductive Alcanzable (s0 : Store) : Store → Prop where
  | inicio : Alcanzable s0 s0
  | entrada (s : Store) (req : SolicitudEntrada) :
      Alcanzable s0 s → Alcanzable s0 (registrarEntrada req s).2
  | salida (s : Store) (req : SolicitudSalida) :
      Alcanzable s0 s → Alcanzable s0 (registrarSalida req s).2
  | conexion (s : Store) (b : Bool) :
      Alcanzable s0 s → Alcanzable s0 { s with conectado := b }

/-- A freshly provisioned parking lot: no session yet, cells with distinct ids,
none of them occupied. -/
def Provisionado (s : Store) : Prop :=
  s.entradas = [] ∧ (s.celdas.map (fun c => c.id)).Nodup ∧ ∀ c ∈ s.celdas, c.estado ≠ "ocupado"

/-- Number of open sessions that reference the cell with a given id. -/
def abiertasEn (entradas : List Entrada) (celdaId : Nat) : Nat :=
  (entradas.filter (fun e => abierta e && e.CELDA_id == some celdaId)).length

/-- The consistency kept by entry and exit: ids are keys, a cell is occupied
exactly when one open session references it, no cell has two open sessions, and
every open session references a cell of the inventory. -/
structure Coherente (s : Store) : Prop where
  celdas_nodup : (s.celdas.map (fun c => c.id)).Nodup
  entradas_nodup : (s.entradas.map (fun e => e.id)).Nodup
  ocupado_iff : ∀ c ∈ s.celdas, c.estado = "ocupado" ↔ abiertasEn s.entradas c.id = 1
  a_lo_sumo_una : ∀ c ∈ s.celdas, abiertasEn s.entradas c.id ≤ 1
  referencia : ∀ e ∈ s.entradas, abierta e = true → ∃ c ∈ s.celdas, e.CELDA_id = some c.id

/-- The `ocupadas` count of an answer of `GET /api/celdas/estado`. -/
def ocupadasReportadas (r : Respuesta) : Option Nat :=
  match r.cuerpo with
  | Cuerpo.estadoCeldas e => some e.ocupadas
  | _ => none

/-- The number of records of an answer of `GET /api/parqueo/estacionados`. -/
def estacionadosReportados (r : Respuesta) : Option Nat :=
  match r.cuerpo with
  | Cuerpo.estacionados l => some l.length
  | _ => none

/-- A sample store: two profiles, one user, two cells, one registered vehicle,
one open and one closed session, two history rows (one without entry date). -/
def almacenEjemplo : Store :=
  { conectado := true
    perfiles := [⟨1, "Administrador"⟩, ⟨2, "Usuario"⟩]
    usuarios := [{ id := 1, primer_nombre := "Ana", segundo_nombre := "", primer_apellido := some "Rojas",
                   segundo_apellido := none, tipo_documento := "CC", numero_documento := "100",
                   correo := "ana@x.co", clave := "h:secreta", celular := "300", PERFIL_id := 1 }]
    vehiculos := [⟨1, "ABC123", "Carro"⟩]
    celdas := [⟨1, "C1", "Carro", "ocupado"⟩, ⟨2, "C2", "Carro", "libre"⟩]
    entradas := [{ id := 1, vehiculo := some "ABC123", CELDA_id := some 1, fecha_ingreso := 1000,
                   fecha_salida := none, tiempo_estadia := none },
                 { id := 2, vehiculo := some "XYZ789", CELDA_id := some 2, fecha_ingreso := 10,
                   fecha_salida := some 500, tiempo_estadia := some 490 }]
    historial := [{ id := 1, USUARIO_id := some 1, vehiculo := some "ABC123", CELDA_id := some 1,
                    fecha_ingreso := some 1000, fecha_salida := none, tiempo_estadia := none },
                  { id := 2, USUARIO_id := none, vehiculo := some "XYZ789", CELDA_id := none,
                    fecha_ingreso := none, fecha_salida := some 500, tiempo_estadia := none },
                  { id := 3, USUARIO_id := none, vehiculo := none, CELDA_id := some 2,
                    fecha_ingreso := some 2000, fecha_salida := none, tiempo_estadia := none }]
    reglas := [⟨"Carro", 7, 1, none⟩] }

/-- A freshly provisioned lot with one free car cell. -/
def almacenInicial : Store :=
  { conectado := true, perfiles := [], usuarios := [], vehiculos := []
    celdas := [⟨1, "C1", "Carro", "libre"⟩], entradas := [], historial := [], reglas := [] }

/-- A sample registration request with every field present. -/
def solicitudEjemplo : SolicitudRegistro :=
  { primer_nombre := some "Luis", segundo_nombre := some "", primer_apellido := some "Paz",
    segundo_apellido := some "", tipo_documento := some "CC", numero_documento := some "200",
    correo := some "luis@x.co", clave := some "clave", celular := some "301",
    rol := some "Usuario" }

/-- A registration request that repeats the correo of a stored user. -/
def solicitudDuplicada : SolicitudRegistro :=
  { solicitudEjemplo with correo := some "ana@x.co" }

/-- A registration request without correo that repeats the numero_documento of a
stored user. -/
def solicitudSinCorreo : SolicitudRegistro :=
  { solicitudEjemplo with correo := none, numero_documento := some "100" }

/-- A registration request of a new user without clave. -/
def solicitudSinClave : SolicitudRegistro :=
  { solicitudEjemplo with clave := none }

/-- A registration request of a new user without rol. -/
def solicitudSinRol : SolicitudRegistro :=
  { solicitudEjemplo with rol := none }

/-- A sample password hash and its comparison. -/
def hashEjemplo (clave : String) : String := "h:" ++ clave

/-- The comparison that matches `hashEjemplo`. -/
def compareEjemplo (clave hash : String) : Bool := hashEjemplo clave == hash

/-! ## Theorems: the read-only handlers -/

theorem manejar_ok (m : StoreM Respuesta) (msg : String) (s s1 : Store) (r : Respuesta)
    (h : m s = (Except.ok r, s1)) : manejar m msg s = (r, s1) := by
  simp [manejar, h]

theorem bind_consulta {α β : Type} (f : Store → α) (g : α → StoreM β) (s : Store)
    (h : s.conectado = true) : (consulta f >>= g) s = g (f s) s := by
  show StoreM.bind (consulta f) g s = g (f s) s
  simp [StoreM.bind, consulta, h]

theorem bind_consulta_caida {α β : Type} (f : Store → α) (g : α → StoreM β) (s : Store)
    (h : s.conectado = false) :
    (consulta f >>= g) s = (Except.error "SequelizeConnectionError", s) := by
  show StoreM.bind (consulta f) g s = _
  simp [StoreM.bind, consulta, h]

theorem getCeldasEstado_ok (s : Store) (h : s.conectado = true) :
    getCeldasEstado s = (⟨200, Cuerpo.estadoCeldas (resumenCeldas s.celdas)⟩, s) := by
  unfold getCeldasEstado Celda.findAll
  apply manejar_ok
  rw [bind_consulta _ _ _ h]; rfl

theorem getCeldasEstado_caida (s : Store) (h : s.conectado = false) :
    getCeldasEstado s =
      (⟨500, Cuerpo.mensaje "Error interno del servidor al obtener el estado de las celdas."⟩, s) := by
  unfold getCeldasEstado Celda.findAll manejar
  rw [bind_consulta_caida _ _ _ h]

theorem getEstacionados_ok (f : Int → String) (s : Store) (h : s.conectado = true) :
    getEstacionados f s =
      (⟨200, Cuerpo.estacionados
        (((s.entradas.filter (fun e => e.fecha_salida.isNone)).map (incluirEntrada s)).map
          (formatearEstacionado f))⟩, s) := by
  unfold getEstacionados Entrada.findAllEstacionados
  apply manejar_ok
  rw [bind_consulta _ _ _ h]; rfl

theorem getEstacionados_caida (f : Int → String) (s : Store) (h : s.conectado = false) :
    getEstacionados f s =
      (⟨500, Cuerpo.mensaje "Error interno del servidor al obtener los vehículos estacionados."⟩, s) := by
  unfold getEstacionados Entrada.findAllEstacionados manejar
  rw [bind_consulta_caida _ _ _ h]

theorem getHistorial_ok (s : Store) (h : s.conectado = true) :
    getHistorial s =
      (responderHistorial ((s.historial.insertionSort masReciente).map (incluirHistorial s)), s) := by
  unfold getHistorial getHistorialCon HistorialParqueo.findAll
  apply manejar_ok
  rw [bind_consulta _ _ _ h]; rfl

theorem getHistorial_caida (s : Store) (h : s.conectado = false) :
    getHistorial s =
      (⟨500, Cuerpo.mensaje "Error interno del servidor al obtener el historial."⟩, s) := by
  unfold getHistorial getHistorialCon HistorialParqueo.findAll manejar
  rw [bind_consulta_caida _ _ _ h]

theorem fechaLe_total (a b : Option Int) : fechaLe a b = true ∨ fechaLe b a = true := by
  cases a <;> cases b <;> simp [fechaLe]
  exact le_total _ _

theorem fechaLe_trans (a b c : Option Int) (h1 : fechaLe a b = true) (h2 : fechaLe b c = true) :
    fechaLe a c = true := by
  cases a <;> cases b <;> cases c <;> simp_all [fechaLe]
  exact le_trans h1 h2

theorem sorted_masReciente (l : List HistorialParqueo) :
    (l.insertionSort masReciente).Pairwise masReciente := by
  haveI : IsTotal HistorialParqueo masReciente := ⟨fun a b => fechaLe_total _ _⟩
  haveI : IsTrans HistorialParqueo masReciente := ⟨fun a b c h1 h2 => fechaLe_trans _ _ _ h2 h1⟩
  exact List.sorted_insertionSort masReciente l

theorem forall₂_map_self {α β : Type} (f : α → β) (R : α → β → Prop) (l : List α)
    (h : ∀ a ∈ l, R a (f a)) : List.Forall₂ R l (l.map f) := by
  induction l with
  | nil => exact List.Forall₂.nil
  | cons a l ih =>
    exact List.Forall₂.cons (h a (List.mem_cons_self a l))
      (ih (fun b hb => h b (List.mem_cons_of_mem a hb)))

theorem ocupadas_libres_le (celdas : List Celda) :
    (celdas.filter (fun celda => celda.estado == "ocupado")).length +
      (celdas.filter (fun celda => celda.estado == "libre")).length ≤ celdas.length := by
  induction celdas with
  | nil => simp
  | cons c l ih =>
    by_cases h1 : c.estado = "ocupado"
    · have h2 : ¬ c.estado = "libre" := by rw [h1]; decide
      simp [List.filter_cons, h1, h2] at ih ⊢
      omega
    · by_cases h2 : c.estado = "libre"
      · simp [List.filter_cons, h1, h2] at ih ⊢
        omega
      · simp [List.filter_cons, h1, h2] at ih ⊢
        omega

theorem ocupadas_libres_eq (celdas : List Celda)
    (h : ∀ c ∈ celdas, c.estado = "ocupado" ∨ c.estado = "libre") :
    (celdas.filter (fun celda => celda.estado == "ocupado")).length +
      (celdas.filter (fun celda => celda.estado == "libre")).length = celdas.length := by
  induction celdas with
  | nil => simp
  | cons c l ih =>
    have ih1 := ih (fun x hx => h x (List.mem_cons_of_mem c hx))
    rcases h c (List.mem_cons_self c l) with h1 | h1
    · have h2 : ¬ c.estado = "libre" := by rw [h1]; decide
      simp [List.filter_cons, h1, h2] at ih1 ⊢
      omega
    · have h2 : ¬ c.estado = "ocupado" := by rw [h1]; decide
      simp [List.filter_cons, h1, h2] at ih1 ⊢
      omega

/-- C1: whatever list of history items the store returns, the handler answers 200
with one record per item, in which each of vehicle plate, cell name and user name
is taken from the relation when it is present and is the marker N/A when it is
absent; an absent relation never leads to the 500 answer. -/
theorem historial_relaciones_ausentes (findAll : StoreM (List HistorialItem)) (s s1 : Store)
    (historial : List HistorialItem) (h : findAll s = (Except.ok historial, s1)) :
    ∃ registros : List RegistroHistorial,
      (getHistorialCon findAll s).1 = ⟨200, Cuerpo.historial registros⟩ ∧
      List.Forall₂ (fun item r =>
        (∀ v, item.vehiculo = some v → r.placa_vehiculo = v.placa) ∧
        (item.vehiculo = none → r.placa_vehiculo = "N/A") ∧
        (∀ c, item.celda = some c → r.nombre_celda = c.nombre) ∧
        (item.celda = none → r.nombre_celda = "N/A") ∧
        (∀ u, item.usuario = some u →
          r.usuario_nombre = jsTrim (u.primer_nombre ++ " " ++ oVacio u.primer_apellido)) ∧
        (item.usuario = none → r.usuario_nombre = "N/A")) historial registros := by
  refine ⟨historial.map formatearHistorial, ?_, ?_⟩
  · have hb : (findAll >>= fun historial => (pure (responderHistorial historial) : StoreM Respuesta)) s
        = (Except.ok (responderHistorial historial), s1) := by
      show StoreM.bind findAll _ s = _
      simp only [StoreM.bind, h]
      rfl
    unfold getHistorialCon
    rw [manejar_ok _ _ _ _ _ hb]
    rfl
  · apply forall₂_map_self
    intro item _
    refine ⟨?_, ?_, ?_, ?_, ?_, ?_⟩
    · intro v hv; simp [formatearHistorial, hv]
    · intro hv; simp [formatearHistorial, hv]
    · intro c hc; simp [formatearHistorial, hc]
    · intro hc; simp [formatearHistorial, hc]
    · intro u hu; simp [formatearHistorial, hu]
    · intro hu; simp [formatearHistorial, hu]

/-- C2: with the store reachable, the history handler answers with exactly one
record per stored session (the records correspond one to one to a permutation of
the table), each carrying the id, fecha_ingreso, fecha_salida and tiempo_estadia
of its session unchanged, listed in non-increasing order of fecha_ingreso. -/
theorem historial_uno_por_sesion_descendente (s : Store) (h : s.conectado = true) :
    ∃ (filas : List HistorialParqueo) (registros : List RegistroHistorial),
      filas.Perm s.historial ∧
      (getHistorial s).1 = ⟨200, Cuerpo.historial registros⟩ ∧
      List.Forall₂ (fun fila r =>
        r.id = fila.id ∧ r.fecha_ingreso = fila.fecha_ingreso ∧
        r.fecha_salida = fila.fecha_salida ∧ r.tiempo_estadia = fila.tiempo_estadia) filas registros ∧
      (registros.map (fun r => r.fecha_ingreso)).Pairwise (fun a b => fechaLe b a = true) := by
  refine ⟨s.historial.insertionSort masReciente,
    (s.historial.insertionSort masReciente).map (fun fila => formatearHistorial (incluirHistorial s fila)),
    List.perm_insertionSort _ _, ?_, ?_, ?_⟩
  · rw [getHistorial_ok s h]
    simp [responderHistorial, List.map_map, Function.comp_def]
  · apply forall₂_map_self
    intro fila _
    simp [formatearHistorial, incluirHistorial]
  · rw [List.map_map, List.pairwise_map]
    exact (sorted_masReciente s.historial).imp (fun hab => hab)

/-- C3: the three read-only handlers leave the store exactly as they found it,
for every store, whether they answer 200 or 500. -/
theorem lecturas_no_mutan (toLocaleString : Int → String) (s : Store) :
    (getHistorial s).2 = s ∧ (getCeldasEstado s).2 = s ∧
      (getEstacionados toLocaleString s).2 = s := by
  cases h : s.conectado
  · rw [getHistorial_caida s h, getCeldasEstado_caida s h, getEstacionados_caida _ s h]
    exact ⟨rfl, rfl, rfl⟩
  · rw [getHistorial_ok s h, getCeldasEstado_ok s h, getEstacionados_ok _ s h]
    exact ⟨rfl, rfl, rfl⟩

/-- C4: with the store reachable, the parked-vehicles handler answers with one
record for each Entrada whose fecha_salida is null and for no other, in table
order; the record has the id of its Entrada, and its placa and celda are the
plate of the related vehicle and the name of the related cell, or N/A when that
relation is absent. -/
theorem estacionados_solo_abiertas (toLocaleString : Int → String) (s : Store)
    (h : s.conectado = true) :
    ∃ registros : List Estacionado,
      (getEstacionados toLocaleString s).1 = ⟨200, Cuerpo.estacionados registros⟩ ∧
      List.Forall₂ (fun e r =>
        r.id = e.id ∧
        (∀ v, (incluirEntrada s e).vehiculoInfo = some v → r.placa = v.placa) ∧
        ((incluirEntrada s e).vehiculoInfo = none → r.placa = "N/A") ∧
        (∀ c, (incluirEntrada s e).celdaInfo = some c → r.celda = c.nombre) ∧
        ((incluirEntrada s e).celdaInfo = none → r.celda = "N/A"))
        (s.entradas.filter (fun e => e.fecha_salida = none)) registros := by
  refine ⟨(s.entradas.filter (fun e => e.fecha_salida = none)).map
    (fun e => formatearEstacionado toLocaleString (incluirEntrada s e)), ?_, ?_⟩
  · rw [getEstacionados_ok _ s h]
    have hf : (fun e : Entrada => e.fecha_salida.isNone) = (fun e => decide (e.fecha_salida = none)) := by
      funext e
      cases e.fecha_salida <;> simp
    simp [List.map_map, Function.comp_def, hf]
  · apply forall₂_map_self
    intro e _
    refine ⟨rfl, ?_, ?_, ?_, ?_⟩
    · intro v hv; simp [formatearEstacionado, hv]
    · intro hv; simp [formatearEstacionado, hv]
    · intro c hc; simp [formatearEstacionado, hc]
    · intro hc; simp [formatearEstacionado, hc]

/-- C8: for every list of cells the store returns, the summary sent by the cell
handler has total equal to the number of cells, one detalles entry per cell with
the same id, nombre, tipo and estado in the same order, ocupadas + libres at most
total, and ocupadas + libres equal to total when every estado is ocupado or
libre. -/
theorem celdas_estado_conteos (s : Store) (h : s.conectado = true) :
    ∃ e : EstadoCeldas,
      (getCeldasEstado s).1 = ⟨200, Cuerpo.estadoCeldas e⟩ ∧
      e.total = s.celdas.length ∧
      List.Forall₂ (fun c d =>
        d.id = c.id ∧ d.nombre = c.nombre ∧ d.tipo = c.tipoVehiculo ∧ d.estado = c.estado)
        s.celdas e.detalles ∧
      e.ocupadas + e.libres ≤ e.total ∧
      ((∀ c ∈ s.celdas, c.estado = "ocupado" ∨ c.estado = "libre") →
        e.ocupadas + e.libres = e.total) := by
  refine ⟨resumenCeldas s.celdas, ?_, rfl, ?_, ocupadas_libres_le s.celdas,
    ocupadas_libres_eq s.celdas⟩
  · rw [getCeldasEstado_ok s h]
  · apply forall₂_map_self
    intro c _
    exact ⟨rfl, rfl, rfl, rfl⟩

/-! ## Theorems: registration and login -/

theorem bind_ok {α β : Type} (m : StoreM α) (g : α → StoreM β) (s s1 : Store) (a : α)
    (h : m s = (Except.ok a, s1)) : (m >>= g) s = g a s1 := by
  show StoreM.bind m g s = g a s1
  simp [StoreM.bind, h]

theorem bind_error {α β : Type} (m : StoreM α) (g : α → StoreM β) (s s1 : Store) (e : String)
    (h : m s = (Except.error e, s1)) : (m >>= g) s = (Except.error e, s1) := by
  show StoreM.bind m g s = (Except.error e, s1)
  simp [StoreM.bind, h]

theorem manejar_error (m : StoreM Respuesta) (msg : String) (s s1 : Store) (e : String)
    (h : m s = (Except.error e, s1)) :
    manejar m msg s = (⟨500, Cuerpo.mensaje msg⟩, s1) := by
  simp [manejar, h]

theorem find?_none_of_forall {α : Type} (q : α → Bool) (l : List α) (h : ∀ a ∈ l, q a = false) :
    l.find? q = none := by
  rw [List.find?_eq_none]
  intro a ha
  simp [h a ha]

theorem findOneCorreoODocumento_run (correo doc : String) (s : Store) (h : s.conectado = true) :
    Usuario.findOneCorreoODocumento (some correo) (some doc) s =
      (Except.ok (s.usuarios.find? (fun u => u.correo == correo || u.numero_documento == doc)), s) := by
  simp [Usuario.findOneCorreoODocumento, consulta, h]

theorem getPerfilId_run (rol : String) (s : Store) (h : s.conectado = true) :
    getPerfilId (some rol) s =
      (Except.ok (match s.perfiles.find? (fun p => p.nombre == rol) with
        | some p => some p.id
        | none => none), s) := by
  unfold getPerfilId Perfil.findOneNombre
  simp only
  rw [bind_consulta _ _ _ h]
  rfl

theorem create_run (req : SolicitudRegistro) (hp : String) (pid : Nat) (s : Store)
    (h : s.conectado = true) (pn sn td nd co ce : String)
    (h1 : req.primer_nombre = some pn) (h2 : req.segundo_nombre = some sn)
    (h3 : req.tipo_documento = some td) (h4 : req.numero_documento = some nd)
    (h5 : req.correo = some co) (h6 : req.celular = some ce) :
    ∃ u : Usuario, u.PERFIL_id = pid ∧ u.correo = co ∧ u.numero_documento = nd ∧ u.clave = hp ∧
      Usuario.create req hp pid s = (Except.ok u, { s with usuarios := s.usuarios ++ [u] }) := by
  refine ⟨{ id := Usuario.siguienteId s.usuarios
            primer_nombre := pn
            segundo_nombre := sn
            primer_apellido := req.primer_apellido
            segundo_apellido := req.segundo_apellido
            tipo_documento := td
            numero_documento := nd
            correo := co
            clave := hp
            celular := ce
            PERFIL_id := pid }, rfl, rfl, rfl, rfl, ?_⟩
  simp only [Usuario.create, h1, h2, h3, h4, h5, h6, escritura, h]
  rfl

theorem postRegistro_duplicado (hash : String → String) (req : SolicitudRegistro) (s : Store)
    (hc : s.conectado = true) (correo doc : String) (hcorreo : req.correo = some correo)
    (hdoc : req.numero_documento = some doc) (u : Usuario)
    (hu : s.usuarios.find? (fun u => u.correo == correo || u.numero_documento == doc) = some u) :
    postRegistro hash req s =
      (⟨409, Cuerpo.mensaje "El correo o el número de documento ya están registrados."⟩, s) := by
  unfold postRegistro
  apply manejar_ok
  rw [hcorreo, hdoc, bind_ok _ _ _ _ _ (findOneCorreoODocumento_run _ _ s hc), hu]
  rfl

theorem postRegistro_nuevo (hash : String → String) (req : SolicitudRegistro) (s : Store)
    (hc : s.conectado = true) (correo doc clave rol : String) (hcorreo : req.correo = some correo)
    (hdoc : req.numero_documento = some doc) (hclave : req.clave = some clave)
    (hrol : req.rol = some rol)
    (hu : s.usuarios.find? (fun u => u.correo == correo || u.numero_documento == doc) = none) :
    postRegistro hash req s =
      manejar (do
        let perfilId ← getPerfilId (some rol)
        if noPerfilId perfilId then
          pure ⟨400, Cuerpo.mensaje "Rol de usuario inválido."⟩
        else
          let nuevoUsuario ← Usuario.create req (hash clave) (perfilId.getD 0)
          pure ⟨201, Cuerpo.registro "Usuario registrado con éxito." nuevoUsuario⟩)
        "Error interno del servidor durante el registro." s := by
  unfold postRegistro manejar
  rw [hcorreo, hdoc, bind_ok _ _ _ _ _ (findOneCorreoODocumento_run _ _ s hc), hu, hclave, hrol]
  rfl

theorem postRegistro_sin_perfil (hash : String → String) (req : SolicitudRegistro) (s : Store)
    (hc : s.conectado = true) (correo doc clave rol : String) (hcorreo : req.correo = some correo)
    (hdoc : req.numero_documento = some doc) (hclave : req.clave = some clave)
    (hrol : req.rol = some rol)
    (hu : s.usuarios.find? (fun u => u.correo == correo || u.numero_documento == doc) = none)
    (hp : s.perfiles.find? (fun p => p.nombre == rol) = none) :
    postRegistro hash req s = (⟨400, Cuerpo.mensaje "Rol de usuario inválido."⟩, s) := by
  rw [postRegistro_nuevo hash req s hc correo doc clave rol hcorreo hdoc hclave hrol hu]
  apply manejar_ok
  rw [bind_ok _ _ _ _ _ (getPerfilId_run _ s hc), hp]
  rfl

theorem postRegistro_con_perfil (hash : String → String) (req : SolicitudRegistro) (s : Store)
    (hc : s.conectado = true) (correo doc clave rol : String) (hcorreo : req.correo = some correo)
    (hdoc : req.numero_documento = some doc) (hclave : req.clave = some clave)
    (hrol : req.rol = some rol)
    (hu : s.usuarios.find? (fun u => u.correo == correo || u.numero_documento == doc) = none)
    (p : Perfil) (hp : s.perfiles.find? (fun p => p.nombre == rol) = some p) (hid : p.id ≠ 0) :
    postRegistro hash req s =
      manejar (do
        let nuevoUsuario ← Usuario.create req (hash clave) p.id
        pure ⟨201, Cuerpo.registro "Usuario registrado con éxito." nuevoUsuario⟩)
        "Error interno del servidor durante el registro." s := by
  rw [postRegistro_nuevo hash req s hc correo doc clave rol hcorreo hdoc hclave hrol hu]
  unfold manejar
  rw [bind_ok _ _ _ _ _ (getPerfilId_run _ s hc), hp]
  have hno : noPerfilId (some p.id) = false := by simp [noPerfilId, hid]
  simp only [hno]
  rfl

theorem postRegistro_con_perfil_status (hash : String → String) (req : SolicitudRegistro)
    (s : Store) (hc : s.conectado = true) (correo doc clave rol : String)
    (hcorreo : req.correo = some correo) (hdoc : req.numero_documento = some doc)
    (hclave : req.clave = some clave) (hrol : req.rol = some rol)
    (hu : s.usuarios.find? (fun u => u.correo == correo || u.numero_documento == doc) = none)
    (p : Perfil) (hp : s.perfiles.find? (fun p => p.nombre == rol) = some p) (hid : p.id ≠ 0) :
    (postRegistro hash req s).1.status = 201 ∨ (postRegistro hash req s).1.status = 500 := by
  rw [postRegistro_con_perfil hash req s hc correo doc clave rol hcorreo hdoc hclave hrol hu p hp hid]
  cases hcr : Usuario.create req (hash clave) p.id s with
  | mk r s1 =>
    cases r with
    | error e =>
      right
      rw [manejar_error _ _ s s1 e (bind_error _ _ _ _ _ hcr)]
    | ok u =>
      left
      have hb := bind_ok (Usuario.create req (hash clave) p.id)
        (fun nuevoUsuario => (pure ⟨201, Cuerpo.registro "Usuario registrado con éxito." nuevoUsuario⟩ :
          StoreM Respuesta)) s s1 u hcr
      rw [manejar_ok _ _ s s1 _ hb]

/-- C6 (amended): with the store reachable and correo and numero_documento both
present strings in the request, when some existing user has that correo or that
numero_documento the registration handler answers 409 and leaves the store
unchanged, for every requested role (present or absent) and every profile table:
the duplicate check is decided before the role is looked up. -/
theorem registro_duplicado_409_campos_presentes (hash : String → String) (req : SolicitudRegistro)
    (s : Store) (hc : s.conectado = true) (correo doc : String)
    (hcorreo : req.correo = some correo) (hdoc : req.numero_documento = some doc)
    (hdup : ∃ u ∈ s.usuarios, u.correo = correo ∨ u.numero_documento = doc) :
    ∀ (rol : Option String) (perfiles : List Perfil),
      postRegistro hash { req with rol := rol } { s with perfiles := perfiles } =
        (⟨409, Cuerpo.mensaje "El correo o el número de documento ya están registrados."⟩,
          { s with perfiles := perfiles }) := by
  intro rol perfiles
  obtain ⟨u, hu, hm⟩ := hdup
  have hsome : (s.usuarios.find?
      (fun u => u.correo == correo || u.numero_documento == doc)).isSome = true := by
    rw [List.find?_isSome]
    exact ⟨u, hu, by simpa using hm⟩
  obtain ⟨v, hv⟩ := Option.isSome_iff_exists.mp hsome
  exact postRegistro_duplicado hash { req with rol := rol } { s with perfiles := perfiles } hc
    correo doc hcorreo hdoc v hv

/-- C7 (amended): with the store reachable, profile ids non-zero, and correo,
numero_documento, clave and rol present strings in the request, no existing user
sharing that correo or numero_documento: when the role names a profile and the
request carries the four other columns a user row requires, the handler appends
exactly one user whose PERFIL_id is the id of that profile and answers 201; and
it answers 400 exactly when no profile has that name, in which case the store is
unchanged. -/
theorem registro_campos_presentes_201_o_400 (hash : String → String) (req : SolicitudRegistro)
    (s : Store) (hc : s.conectado = true) (correo doc clave rol : String)
    (hcorreo : req.correo = some correo) (hdoc : req.numero_documento = some doc)
    (hclave : req.clave = some clave) (hrol : req.rol = some rol)
    (hnuevo : ∀ u ∈ s.usuarios, u.correo ≠ correo ∧ u.numero_documento ≠ doc)
    (hids : ∀ p ∈ s.perfiles, p.id ≠ 0) :
    (∀ p, s.perfiles.find? (fun p => p.nombre == rol) = some p →
      req.primer_nombre ≠ none → req.segundo_nombre ≠ none →
      req.tipo_documento ≠ none → req.celular ≠ none →
      ∃ u : Usuario, u.PERFIL_id = p.id ∧
        postRegistro hash req s =
          (⟨201, Cuerpo.registro "Usuario registrado con éxito." u⟩,
            { s with usuarios := s.usuarios ++ [u] })) ∧
    ((postRegistro hash req s).1.status = 400 ↔ ∀ p ∈ s.perfiles, p.nombre ≠ rol) ∧
    ((∀ p ∈ s.perfiles, p.nombre ≠ rol) →
      postRegistro hash req s = (⟨400, Cuerpo.mensaje "Rol de usuario inválido."⟩, s)) := by
  have hu : s.usuarios.find?
      (fun u => u.correo == correo || u.numero_documento == doc) = none := by
    apply find?_none_of_forall
    intro u hmem
    have := hnuevo u hmem
    simp [this.1, this.2]
  have h400 : (∀ p ∈ s.perfiles, p.nombre ≠ rol) →
      postRegistro hash req s = (⟨400, Cuerpo.mensaje "Rol de usuario inválido."⟩, s) := by
    intro hno
    apply postRegistro_sin_perfil hash req s hc correo doc clave rol hcorreo hdoc hclave hrol hu
    apply find?_none_of_forall
    intro p hp
    simp [hno p hp]
  refine ⟨?_, ⟨?_, ?_⟩, h400⟩
  · intro p hp h1 h2 h3 h4
    obtain ⟨pn, hpn⟩ := Option.ne_none_iff_exists'.mp h1
    obtain ⟨sn, hsn⟩ := Option.ne_none_iff_exists'.mp h2
    obtain ⟨td, htd⟩ := Option.ne_none_iff_exists'.mp h3
    obtain ⟨ce, hce⟩ := Option.ne_none_iff_exists'.mp h4
    obtain ⟨u, hu1, _, _, _, hu5⟩ :=
      create_run req (hash clave) p.id s hc pn sn td doc correo ce hpn hsn htd hdoc hcorreo hce
    refine ⟨u, hu1, ?_⟩
    rw [postRegistro_con_perfil hash req s hc correo doc clave rol hcorreo hdoc hclave hrol hu p hp
      (hids p (List.mem_of_find?_eq_some hp))]
    apply manejar_ok
    rw [bind_ok _ _ _ _ _ hu5]
    rfl
  · intro hst p hp hnom
    have hsome : (s.perfiles.find? (fun p => p.nombre == rol)).isSome = true := by
      rw [List.find?_isSome]
      exact ⟨p, hp, by simpa using hnom⟩
    obtain ⟨q, hq⟩ := Option.isSome_iff_exists.mp hsome
    rcases postRegistro_con_perfil_status hash req s hc correo doc clave rol hcorreo hdoc hclave
      hrol hu q hq (hids q (List.mem_of_find?_eq_some hq)) with h | h
    · rw [h] at hst
      exact absurd hst (by decide)
    · rw [h] at hst
      exact absurd hst (by decide)
  · intro hno
    rw [h400 hno]

/-! ## Theorems: login -/

theorem findOneCorreo_run (correo : String) (s : Store) (h : s.conectado = true) :
    Usuario.findOneCorreo (some correo) s =
      (Except.ok (match s.usuarios.find? (fun u => u.correo == correo) with
        | some u => some (u, s.perfiles.find? (fun p => p.id == u.PERFIL_id))
        | none => none), s) := by
  simp [Usuario.findOneCorreo, consulta, h]

theorem postLogin_desconocido (compare : String → String → Bool) (correo : String)
    (clave : Option String) (s : Store)
    (hc : s.conectado = true) (hu : s.usuarios.find? (fun u => u.correo == correo) = none) :
    postLogin compare (some correo) clave s =
      (⟨401, Cuerpo.mensaje "Credenciales inválidas."⟩, s) := by
  unfold postLogin
  apply manejar_ok
  rw [bind_ok _ _ _ _ _ (findOneCorreo_run _ s hc), hu]
  rfl

theorem postLogin_clave_errada (compare : String → String → Bool) (correo clave : String) (s : Store)
    (hc : s.conectado = true) (u : Usuario)
    (hu : s.usuarios.find? (fun u => u.correo == correo) = some u)
    (hcmp : compare clave u.clave = false) :
    postLogin compare (some correo) (some clave) s =
      (⟨401, Cuerpo.mensaje "Credenciales inválidas."⟩, s) := by
  unfold postLogin
  apply manejar_ok
  rw [bind_ok _ _ _ _ _ (findOneCorreo_run _ s hc), hu]
  have hb : bcryptCompare compare (some clave) u.clave s = (Except.ok false, s) := by
    simp only [bcryptCompare, hcmp]
    rfl
  simp only
  rw [bind_ok _ _ _ _ _ hb]
  rfl

theorem postLogin_sin_clave (compare : String → String → Bool) (correo : String) (s : Store)
    (hc : s.conectado = true) (u : Usuario)
    (hu : s.usuarios.find? (fun u => u.correo == correo) = some u) :
    (postLogin compare (some correo) none s).1.status = 500 := by
  unfold postLogin manejar
  rw [bind_ok _ _ _ _ _ (findOneCorreo_run _ s hc), hu]
  have hb : bcryptCompare compare none u.clave s =
      (Except.error "Illegal arguments: undefined, string", s) := rfl
  simp only
  rw [bind_error _ _ _ _ _ hb]

theorem postLogin_sin_correo (compare : String → String → Bool) (clave : Option String) (s : Store) :
    (postLogin compare none clave s).1.status = 500 := by
  unfold postLogin manejar
  have hb : Usuario.findOneCorreo none s =
      (Except.error "WHERE parameter has invalid undefined value", s) := rfl
  rw [bind_error _ _ _ _ _ hb]

theorem postLogin_caida (compare : String → String → Bool) (correo : String)
    (clave : Option String) (s : Store) (hc : s.conectado = false) :
    (postLogin compare (some correo) clave s).1.status = 500 := by
  unfold postLogin Usuario.findOneCorreo manejar
  simp only
  rw [bind_consulta_caida _ _ _ hc]

/-- C9 (amended): with the store reachable and a clave that is a present string,
a login with a correo that matches no user and a login with a registered correo
whose stored password does not match get the same answer, status 401 with the
body Credenciales inválidas; and in every store a 200 answer is given only when
correo and clave are present strings, the store finds a user for the correo and
the password comparison succeeds. -/
theorem login_clave_presente_no_revela_correo (compare : String → String → Bool) (s : Store)
    (hc : s.conectado = true) (correo1 : String) (clave1 : Option String)
    (correo2 clave2 : String) (u : Usuario)
    (h1 : ∀ x ∈ s.usuarios, x.correo ≠ correo1)
    (h2 : s.usuarios.find? (fun x => x.correo == correo2) = some u)
    (h3 : compare clave2 u.clave = false) :
    (postLogin compare (some correo1) clave1 s).1 = ⟨401, Cuerpo.mensaje "Credenciales inválidas."⟩ ∧
    (postLogin compare (some correo2) (some clave2) s).1 =
      (postLogin compare (some correo1) clave1 s).1 ∧
    (∀ (t : Store) (correo clave : Option String),
      (postLogin compare correo clave t).1.status = 200 →
      ∃ c k x, correo = some c ∧ clave = some k ∧
        t.usuarios.find? (fun y => y.correo == c) = some x ∧ compare k x.clave = true) := by
  have hn : s.usuarios.find? (fun x => x.correo == correo1) = none := by
    apply find?_none_of_forall
    intro x hx
    simp [h1 x hx]
  rw [postLogin_desconocido compare correo1 clave1 s hc hn,
    postLogin_clave_errada compare correo2 clave2 s hc u h2 h3]
  refine ⟨rfl, rfl, ?_⟩
  intro t correo clave hst
  cases correo with
  | none =>
    rw [postLogin_sin_correo compare clave t] at hst
    exact absurd hst (by decide)
  | some c =>
    cases hct : t.conectado
    · rw [postLogin_caida compare c clave t hct] at hst
      exact absurd hst (by decide)
    · cases hf : t.usuarios.find? (fun y => y.correo == c) with
      | none =>
        rw [postLogin_desconocido compare c clave t hct hf] at hst
        simp at hst
      | some x =>
        cases clave with
        | none =>
          rw [postLogin_sin_clave compare c t hct x hf] at hst
          exact absurd hst (by decide)
        | some k =>
          cases hcmp : compare k x.clave
          · rw [postLogin_clave_errada compare c k t hct x hf hcmp] at hst
            simp at hst
          · exact ⟨c, k, x, rfl, rfl, hf, hcmp⟩

/-! ## Theorems: the migration -/

theorem actualizarFechaIngreso_run (ahora : Int) (s : Store) (hc : s.conectado = true) :
    actualizarFechaIngreso ahora s =
      (some (s.historial.filter (fun h => h.fecha_ingreso.isNone)).length,
        { s with historial := s.historial.map (fun h =>
            if h.fecha_ingreso.isNone then { h with fecha_ingreso := some ahora } else h) }) := by
  unfold actualizarFechaIngreso authenticate
  rw [bind_consulta _ _ _ hc]
  have : HistorialParqueo.updateFechaIngresoNula ahora s =
      (Except.ok (s.historial.filter (fun h => h.fecha_ingreso.isNone)).length,
        { s with historial := s.historial.map (fun h =>
            if h.fecha_ingreso.isNone then { h with fecha_ingreso := some ahora } else h) }) := by
    simp [HistorialParqueo.updateFechaIngresoNula, escritura, hc]
  rw [bind_ok _ _ _ _ _ this]
  rfl

theorem map_sin_nulas (ahora : Int) (l : List HistorialParqueo)
    (h : ∀ x ∈ l, x.fecha_ingreso.isNone = false) :
    l.map (fun h => if h.fecha_ingreso.isNone then { h with fecha_ingreso := some ahora } else h) = l := by
  induction l with
  | nil => rfl
  | cons a l ih =>
    simp only [List.map_cons, h a (List.mem_cons_self a l)]
    rw [ih (fun x hx => h x (List.mem_cons_of_mem a hx))]
    rfl

theorem actualizarFechaIngreso_sin_nulas (ahora : Int) (s : Store) (hc : s.conectado = true)
    (h : ∀ x ∈ s.historial, x.fecha_ingreso.isNone = false) :
    actualizarFechaIngreso ahora s = (some 0, s) := by
  rw [actualizarFechaIngreso_run ahora s hc, map_sin_nulas ahora s.historial h]
  have : s.historial.filter (fun h => h.fecha_ingreso.isNone) = [] := by
    rw [List.filter_eq_nil_iff]
    intro x hx
    simp [h x hx]
  rw [this]
  rfl

/-- C10: with the database reachable, the migration run at time ahora gives each
history row whose fecha_ingreso is null that timestamp and changes nothing else
in it, leaves every row that already had a fecha_ingreso equal to itself, leaves
the other tables alone, reports the number of rows that were null, leaves no
row with a null fecha_ingreso, and a second run (at any later time) reports 0
and leaves the store of the first run unchanged. -/
theorem migracion_solo_fechas_nulas (ahora despues : Int) (s : Store) (hc : s.conectado = true) :
    (actualizarFechaIngreso ahora s).1 =
      some (s.historial.filter (fun h => h.fecha_ingreso = none)).length ∧
    List.Forall₂ (fun h h1 =>
      (h.fecha_ingreso = none → h1 = { h with fecha_ingreso := some ahora }) ∧
      (h.fecha_ingreso ≠ none → h1 = h)) s.historial (actualizarFechaIngreso ahora s).2.historial ∧
    (∀ h1 ∈ (actualizarFechaIngreso ahora s).2.historial, h1.fecha_ingreso ≠ none) ∧
    (actualizarFechaIngreso ahora s).2 =
      { s with historial := (actualizarFechaIngreso ahora s).2.historial } ∧
    actualizarFechaIngreso despues (actualizarFechaIngreso ahora s).2 =
      (some 0, (actualizarFechaIngreso ahora s).2) := by
  rw [actualizarFechaIngreso_run ahora s hc]
  refine ⟨?_, ?_, ?_, rfl, ?_⟩
  · have hf : (fun h : HistorialParqueo => h.fecha_ingreso.isNone) =
        (fun h => decide (h.fecha_ingreso = none)) := by
      funext h
      cases h.fecha_ingreso <;> simp
    simp [hf]
  · apply forall₂_map_self
    intro h _
    constructor
    · intro hn; simp [hn]
    · intro hn
      cases hx : h.fecha_ingreso with
      | none => exact absurd hx hn
      | some v => simp
  · intro h1 hmem
    simp only [List.mem_map] at hmem
    obtain ⟨x, _, rfl⟩ := hmem
    cases hx : x.fecha_ingreso <;> simp [hx]
  · refine actualizarFechaIngreso_sin_nulas despues { s with historial := _ } hc ?_
    intro x hx
    simp only [List.mem_map] at hx
    obtain ⟨y, _, rfl⟩ := hx
    cases hy : y.fecha_ingreso <;> simp [hy]

/-! ## Theorems: entry, exit and the occupancy invariant -/

theorem menorId_mem (l : List Celda) (c : Celda) (h : menorId l = some c) : c ∈ l := by
  induction l generalizing c with
  | nil => simp [menorId] at h
  | cons a l ih =>
    unfold menorId at h
    cases hm : menorId l with
    | none =>
      rw [hm] at h
      simp only [Option.some.injEq] at h
      rw [← h]; exact List.mem_cons_self a l
    | some m =>
      rw [hm] at h
      by_cases hle : a.id ≤ m.id
      · simp only [hle, if_true, Option.some.injEq] at h
        rw [← h]; exact List.mem_cons_self a l
      · simp only [hle, if_false, Option.some.injEq] at h
        rw [← h]; exact List.mem_cons_of_mem a (ih m hm)

theorem celdaLibre_spec (celdas : List Celda) (tipo : String) (c : Celda)
    (h : celdaLibre celdas tipo = some c) :
    c ∈ celdas ∧ c.estado = "libre" ∧ c.tipoVehiculo = tipo := by
  have hm := menorId_mem _ c h
  rw [List.mem_filter] at hm
  obtain ⟨h1, h2⟩ := hm
  simp only [Bool.and_eq_true, beq_iff_eq] at h2
  exact ⟨h1, h2.1, h2.2⟩

theorem map_id_setEstado (k : Nat) (e : String) (celdas : List Celda) :
    (setEstado k e celdas).map (fun c => c.id) = celdas.map (fun c => c.id) := by
  unfold setEstado
  rw [List.map_map]
  apply List.map_congr_left
  intro c _
  simp only [Function.comp]
  split <;> rfl

theorem mem_setEstado (k : Nat) (e : String) (celdas : List Celda) (c1 : Celda)
    (h : c1 ∈ setEstado k e celdas) :
    ∃ c ∈ celdas, c1.id = c.id ∧
      ((c.id = k ∧ c1.estado = e) ∨ (c.id ≠ k ∧ c1 = c)) := by
  unfold setEstado at h
  rw [List.mem_map] at h
  obtain ⟨c, hc, rfl⟩ := h
  refine ⟨c, hc, ?_, ?_⟩
  · split <;> rfl
  · by_cases hk : c.id = k
    · left; simp [hk]
    · right; simp [hk]

theorem mem_setEstado_of_mem (k : Nat) (e : String) (celdas : List Celda) (c : Celda)
    (h : c ∈ celdas) : ∃ c1 ∈ setEstado k e celdas, c1.id = c.id := by
  refine ⟨if c.id == k then { c with estado := e } else c, ?_, ?_⟩
  · unfold setEstado
    exact List.mem_map_of_mem _ h
  · split <;> rfl

theorem setEstado_setEstado (k : Nat) (e1 e2 : String) (celdas : List Celda) :
    setEstado k e2 (setEstado k e1 celdas) = setEstado k e2 celdas := by
  unfold setEstado
  rw [List.map_map]
  apply List.map_congr_left
  intro c _
  simp only [Function.comp]
  by_cases hk : c.id = k <;> simp [hk]

theorem setEstado_eq_self (k : Nat) (e : String) (celdas : List Celda)
    (h : ∀ c ∈ celdas, c.id = k → c.estado = e) : setEstado k e celdas = celdas := by
  unfold setEstado
  conv_rhs => rw [← List.map_id celdas]
  apply List.map_congr_left
  intro c hc
  by_cases hk : c.id = k
  · have he := h c hc hk
    simp only [hk, beq_self_eq_true, if_true, id]
    cases c
    simp_all
  · simp [hk]

theorem eq_of_id_eq_celda (celdas : List Celda) (hnd : (celdas.map (fun c => c.id)).Nodup)
    (a b : Celda) (ha : a ∈ celdas) (hb : b ∈ celdas) (hid : a.id = b.id) : a = b :=
  List.inj_on_of_nodup_map hnd ha hb hid

theorem le_foldr_max (l : List Nat) (n : Nat) (h : n ∈ l) : n ≤ l.foldr max 0 := by
  induction l with
  | nil => simp at h
  | cons a l ih =>
    simp only [List.foldr_cons]
    rcases List.mem_cons.mp h with rfl | h1
    · exact le_max_left _ _
    · exact le_trans (ih h1) (le_max_right _ _)

theorem siguienteId_fresco (l : List Entrada) :
    Entrada.siguienteId l ∉ l.map (fun e => e.id) := by
  intro h
  have := le_foldr_max _ _ h
  unfold Entrada.siguienteId at this
  omega

theorem abiertasEn_append (l : List Entrada) (e : Entrada) (k : Nat) :
    abiertasEn (l ++ [e]) k =
      abiertasEn l k + (if abierta e && e.CELDA_id == some k then 1 else 0) := by
  unfold abiertasEn
  rw [List.filter_append, List.length_append]
  by_cases h : (abierta e && e.CELDA_id == some k) = true
  · simp [List.filter_cons, h]
  · simp [List.filter_cons, h]

theorem abiertasEn_zero_of_not_any (l : List Entrada) (k : Nat)
    (h : l.any (fun e => abierta e && e.CELDA_id == some k) = false) : abiertasEn l k = 0 := by
  unfold abiertasEn
  rw [List.length_eq_zero, List.filter_eq_nil_iff]
  intro e he
  rw [List.any_eq_false] at h
  exact h e he

theorem release_allocate (s : Store) (c : Celda) (hnd : (s.celdas.map (fun c => c.id)).Nodup)
    (hc : c ∈ s.celdas) (hl : c.estado = "libre") :
    release c.id { s with celdas := setEstado c.id "ocupado" s.celdas } = s := by
  unfold release
  simp only [setEstado_setEstado]
  rw [setEstado_eq_self]
  intro x hx hid
  rw [eq_of_id_eq_celda s.celdas hnd x c hx hc hid]
  exact hl

theorem coherente_abrir (s : Store) (h : Coherente s) (c : Celda) (hc : c ∈ s.celdas)
    (h0 : abiertasEn s.entradas c.id = 0) (placa : String) (entryTime : Int) :
    Coherente { s with
      celdas := setEstado c.id "ocupado" s.celdas,
      entradas := s.entradas ++ [⟨Entrada.siguienteId s.entradas, some placa, some c.id, entryTime,
        none, none⟩] } := by
  constructor
  · show ((setEstado c.id "ocupado" s.celdas).map (fun c => c.id)).Nodup
    rw [map_id_setEstado]
    exact h.celdas_nodup
  · show ((s.entradas ++ [_]).map (fun e : Entrada => e.id)).Nodup
    rw [List.map_append, List.nodup_append]
    refine ⟨h.entradas_nodup, by simp, ?_⟩
    intro x hx hx1
    simp only [List.map_cons, List.map_nil, List.mem_singleton] at hx1
    subst hx1
    exact siguienteId_fresco _ hx
  · intro c1 hc1
    obtain ⟨x, hx, hid, hcase⟩ := mem_setEstado _ _ _ _ hc1
    show c1.estado = "ocupado" ↔ abiertasEn (s.entradas ++ [_]) c1.id = 1
    rw [abiertasEn_append, hid]
    rcases hcase with ⟨hk, he⟩ | ⟨hk, he⟩
    · rw [hk, h0]
      simp [abierta, he]
    · have hne : ¬ (c.id = x.id) := fun hh => hk hh.symm
      rw [he]
      simp only [abierta, Option.isNone_none, Bool.true_and, beq_iff_eq, Option.some.injEq, hne,
        if_false, Nat.add_zero]
      exact h.ocupado_iff x hx
  · intro c1 hc1
    obtain ⟨x, hx, hid, hcase⟩ := mem_setEstado _ _ _ _ hc1
    show abiertasEn (s.entradas ++ [_]) c1.id ≤ 1
    rw [abiertasEn_append, hid]
    rcases hcase with ⟨hk, _⟩ | ⟨hk, _⟩
    · rw [hk, h0]
      simp [abierta]
    · have hne : ¬ (c.id = x.id) := fun hh => hk hh.symm
      simp only [abierta, Option.isNone_none, Bool.true_and, beq_iff_eq, Option.some.injEq, hne,
        if_false, Nat.add_zero]
      exact h.a_lo_sumo_una x hx
  · intro e he hab
    show ∃ c1 ∈ setEstado c.id "ocupado" s.celdas, e.CELDA_id = some c1.id
    rcases List.mem_append.mp he with hold | hnew
    · obtain ⟨c0, hc0, href⟩ := h.referencia e hold hab
      obtain ⟨c1, hc1, hid⟩ := mem_setEstado_of_mem c.id "ocupado" s.celdas c0 hc0
      exact ⟨c1, hc1, by rw [href, hid]⟩
    · rw [List.mem_singleton] at hnew
      obtain ⟨c1, hc1, hid⟩ := mem_setEstado_of_mem c.id "ocupado" s.celdas c hc
      exact ⟨c1, hc1, by rw [hnew, hid]⟩

theorem openSession_duplicada (placa : String) (celda : Celda) (entryTime : Int) (s : Store)
    (h : (s.entradas.any (fun e => abierta e && e.vehiculo == some placa) ||
      s.entradas.any (fun e => abierta e && e.CELDA_id == some celda.id)) = true) :
    openSession placa celda entryTime s = (Except.error ErrorParqueo.DuplicateOpenSession, s) := by
  unfold openSession
  rw [if_pos h]

theorem openSession_nueva (placa : String) (celda : Celda) (entryTime : Int) (s : Store)
    (h : ¬ (s.entradas.any (fun e => abierta e && e.vehiculo == some placa) ||
      s.entradas.any (fun e => abierta e && e.CELDA_id == some celda.id)) = true) :
    openSession placa celda entryTime s =
      (Except.ok ⟨Entrada.siguienteId s.entradas, some placa, some celda.id, entryTime, none, none⟩,
        { s with entradas := s.entradas ++
            [⟨Entrada.siguienteId s.entradas, some placa, some celda.id, entryTime, none, none⟩] }) := by
  unfold openSession
  rw [if_neg h]

theorem allocate_some (tipo : String) (s : Store) (c : Celda)
    (h : celdaLibre s.celdas tipo = some c) :
    allocate tipo s = (Except.ok c, { s with celdas := setEstado c.id "ocupado" s.celdas }) := by
  unfold allocate
  rw [h]

theorem allocate_none (tipo : String) (s : Store) (h : celdaLibre s.celdas tipo = none) :
    allocate tipo s = (Except.error ErrorParqueo.NoFreeCell, s) := by
  unfold allocate
  rw [h]

theorem coherente_registrarEntrada (req : SolicitudEntrada) (s : Store) (h : Coherente s) :
    Coherente (registrarEntrada req s).2 := by
  unfold registrarEntrada
  split
  · exact h
  · split
    · exact h
    · cases hcl : celdaLibre s.celdas req.tipoVehiculo with
      | none =>
        rw [allocate_none _ _ hcl]
        exact h
      | some c =>
        obtain ⟨hc, hl, _⟩ := celdaLibre_spec _ _ _ hcl
        rw [allocate_some _ _ _ hcl]
        simp only
        by_cases hdup : (s.entradas.any (fun e => abierta e && e.vehiculo == some (normalizarPlaca req.placa)) ||
            s.entradas.any (fun e => abierta e && e.CELDA_id == some c.id)) = true
        · rw [openSession_duplicada _ _ _ { s with celdas := setEstado c.id "ocupado" s.celdas } hdup]
          simp only
          rw [release_allocate s c h.celdas_nodup hc hl]
          exact h
        · rw [openSession_nueva _ _ _ { s with celdas := setEstado c.id "ocupado" s.celdas } hdup]
          simp only [Bool.or_eq_true, not_or, Bool.not_eq_true] at hdup
          have h0 : abiertasEn s.entradas c.id = 0 := abiertasEn_zero_of_not_any _ _ hdup.2
          exact coherente_abrir s h c hc h0 _ _

theorem abiertasEn_cons (a : Entrada) (l : List Entrada) (k : Nat) :
    abiertasEn (a :: l) k =
      (if abierta a && a.CELDA_id == some k then 1 else 0) + abiertasEn l k := by
  unfold abiertasEn
  by_cases h : (abierta a && a.CELDA_id == some k) = true
  · simp [List.filter_cons, h]; omega
  · simp [List.filter_cons, h]

theorem map_cerrar_eq_self (e cerrada : Entrada) (l : List Entrada)
    (h : e.id ∉ l.map (fun x => x.id)) :
    l.map (fun x => if x.id == e.id then cerrada else x) = l := by
  conv_rhs => rw [← List.map_id l]
  apply List.map_congr_left
  intro x hx
  have hne : ¬ (x.id = e.id) := by
    intro hh
    apply h
    rw [← hh]
    exact List.mem_map_of_mem (fun x => x.id) hx
  simp [hne]

theorem abiertasEn_cerrar (e cerrada : Entrada) (hcer : abierta cerrada = false)
    (l : List Entrada) (hnd : (l.map (fun x => x.id)).Nodup) (he : e ∈ l)
    (hab : abierta e = true) (k : Nat) :
    abiertasEn l k =
      abiertasEn (l.map (fun x => if x.id == e.id then cerrada else x)) k +
        (if e.CELDA_id == some k then 1 else 0) := by
  induction l with
  | nil => simp at he
  | cons a l ih =>
    rw [List.map_cons, List.nodup_cons] at hnd
    obtain ⟨hna, hndl⟩ := hnd
    rcases List.mem_cons.mp he with hea | hel
    · subst hea
      rw [List.map_cons, map_cerrar_eq_self e cerrada l hna]
      simp only [beq_self_eq_true, if_true]
      rw [abiertasEn_cons, abiertasEn_cons, hcer, hab]
      simp only [Bool.true_and, Bool.false_and]
      simp only [Bool.false_eq_true, if_false]
      omega
    · have hne : ¬ (a.id = e.id) := by
        intro hh
        apply hna
        rw [hh]
        exact List.mem_map_of_mem (fun x => x.id) hel
      have hif : (if a.id == e.id then cerrada else a) = a := by simp [hne]
      rw [List.map_cons, hif, abiertasEn_cons, abiertasEn_cons, ih hndl hel]
      omega

theorem map_id_cerrar (e cerrada : Entrada) (hid : cerrada.id = e.id) (l : List Entrada) :
    (l.map (fun x => if x.id == e.id then cerrada else x)).map (fun x => x.id) =
      l.map (fun x => x.id) := by
  rw [List.map_map]
  apply List.map_congr_left
  intro x _
  simp only [Function.comp]
  by_cases hx : x.id = e.id
  · simp [hx, hid]
  · simp [hx]

theorem coherente_cerrar (s : Store) (h : Coherente s) (e cerrada : Entrada)
    (he : e ∈ s.entradas) (hab : abierta e = true) (hcer : abierta cerrada = false)
    (hcid : cerrada.id = e.id) (c0 : Nat) (href : e.CELDA_id = some c0) :
    Coherente { s with
      celdas := setEstado c0 "libre" s.celdas,
      entradas := s.entradas.map (fun x => if x.id == e.id then cerrada else x) } := by
  have hcount := abiertasEn_cerrar e cerrada hcer s.entradas h.entradas_nodup he hab
  constructor
  · show ((setEstado c0 "libre" s.celdas).map (fun c => c.id)).Nodup
    rw [map_id_setEstado]
    exact h.celdas_nodup
  · show ((s.entradas.map (fun x => if x.id == e.id then cerrada else x)).map
      (fun x : Entrada => x.id)).Nodup
    rw [map_id_cerrar e cerrada hcid]
    exact h.entradas_nodup
  · intro c1 hc1
    obtain ⟨x, hx, hid, hcase⟩ := mem_setEstado _ _ _ _ hc1
    show c1.estado = "ocupado" ↔
      abiertasEn (s.entradas.map (fun x => if x.id == e.id then cerrada else x)) c1.id = 1
    have hk := hcount x.id
    have hle := h.a_lo_sumo_una x hx
    rw [hid]
    rcases hcase with ⟨hxk, hest⟩ | ⟨hxk, hest⟩
    · have h1 : (e.CELDA_id == some x.id) = true := by simp [href, hxk]
      rw [h1] at hk
      simp only [if_true] at hk
      rw [hest]
      constructor
      · intro hh; exact absurd hh (by decide)
      · intro hh; omega
    · have h1 : (e.CELDA_id == some x.id) = false := by
        simp only [href, beq_eq_false_iff_ne, ne_eq, Option.some.injEq]
        exact fun hh => hxk hh.symm
      rw [h1] at hk
      simp only [Bool.false_eq_true, if_false, Nat.add_zero] at hk
      rw [hest, ← hk]
      exact h.ocupado_iff x hx
  · intro c1 hc1
    obtain ⟨x, hx, hid, _⟩ := mem_setEstado _ _ _ _ hc1
    show abiertasEn (s.entradas.map (fun x => if x.id == e.id then cerrada else x)) c1.id ≤ 1
    have hk := hcount x.id
    have hle := h.a_lo_sumo_una x hx
    rw [hid]
    omega
  · intro e1 he1 hab1
    show ∃ c1 ∈ setEstado c0 "libre" s.celdas, e1.CELDA_id = some c1.id
    have he1m : e1 ∈ s.entradas.map (fun x => if x.id == e.id then cerrada else x) := he1
    rw [List.mem_map] at he1m
    obtain ⟨x, hx, hx1⟩ := he1m
    by_cases hxe : x.id = e.id
    · have hif : (if x.id == e.id then cerrada else x) = cerrada := by simp [hxe]
      rw [hif] at hx1
      rw [← hx1, hcer] at hab1
      exact absurd hab1 (by decide)
    · have hif : (if x.id == e.id then cerrada else x) = x := by simp [hxe]
      rw [hif] at hx1
      rw [← hx1] at hab1 ⊢
      obtain ⟨cx, hcx, hrefx⟩ := h.referencia x hx hab1
      obtain ⟨c1, hc1, hid⟩ := mem_setEstado_of_mem c0 "libre" s.celdas cx hcx
      exact ⟨c1, hc1, by rw [hrefx, hid]⟩

theorem coherente_closeSession (ref : Referencia) (exitTime : Int) (s : Store) (h : Coherente s) :
    Coherente (closeSession ref exitTime s).2 := by
  unfold closeSession
  cases hf : s.entradas.find? (fun e => abierta e && coincide ref e) with
  | none => exact h
  | some e =>
    have he : e ∈ s.entradas := List.mem_of_find?_eq_some hf
    have hp := List.find?_some hf
    simp only [Bool.and_eq_true] at hp
    obtain ⟨c, _, href⟩ := h.referencia e he hp.1
    simp only
    split
    · exact h
    · have hfin := coherente_cerrar s h e
        { e with fecha_salida := some exitTime, tiempo_estadia := some (exitTime - e.fecha_ingreso) }
        he hp.1 rfl rfl c.id href
      simp only [href] at hfin ⊢
      exact hfin

theorem coherente_registrarSalida (req : SolicitudSalida) (s : Store) (h : Coherente s) :
    Coherente (registrarSalida req s).2 := by
  unfold registrarSalida
  split
  · exact h
  · have := coherente_closeSession req.ref req.timestamp s h
    revert this
    cases closeSession req.ref req.timestamp s with
    | mk r s1 =>
      cases r <;> exact fun hh => hh

theorem coherente_de_provisionado (s : Store) (h : Provisionado s) : Coherente s := by
  obtain ⟨he, hnd, hno⟩ := h
  constructor
  · exact hnd
  · rw [he]; exact List.nodup_nil
  · intro c hc
    rw [he]
    constructor
    · intro hh; exact absurd hh (hno c hc)
    · intro hh; simp [abiertasEn] at hh
  · intro c _
    rw [he]
    simp [abiertasEn]
  · intro e hmem
    rw [he] at hmem
    simp at hmem

theorem coherente_alcanzable (s0 s : Store) (h0 : Coherente s0) (h : Alcanzable s0 s) :
    Coherente s := by
  induction h with
  | inicio => exact h0
  | entrada s req _ ih => exact coherente_registrarEntrada req s ih
  | salida s req _ ih => exact coherente_registrarSalida req s ih
  | conexion s b _ ih =>
    exact ⟨ih.celdas_nodup, ih.entradas_nodup, ih.ocupado_iff, ih.a_lo_sumo_una, ih.referencia⟩

theorem suma_indicadora (cs : List Celda) (k : Nat) :
    (cs.map (fun c => if k = c.id then 1 else 0)).sum = (cs.map (fun c => c.id)).count k := by
  induction cs with
  | nil => rfl
  | cons a l ih =>
    rw [List.map_cons, List.map_cons, List.sum_cons, ih, List.count_cons]
    by_cases h : k = a.id
    · simp [h]; omega
    · have h2 : ¬ (a.id = k) := fun hh => h hh.symm
      simp [h, h2]

theorem suma_referencias (cs : List Celda) (hnd : (cs.map (fun c => c.id)).Nodup) (e : Entrada)
    (href : abierta e = true → ∃ c ∈ cs, e.CELDA_id = some c.id) :
    (cs.map (fun c => if abierta e && e.CELDA_id == some c.id then 1 else 0)).sum =
      if abierta e then 1 else 0 := by
  cases hab : abierta e with
  | false => simp
  | true =>
    obtain ⟨c0, hc0, hk⟩ := href hab
    have hfun : (fun c : Celda => if (true && e.CELDA_id == some c.id) = true then 1 else 0) =
        (fun c : Celda => if c0.id = c.id then 1 else 0) := by
      funext c
      simp [hk]
    rw [hfun, suma_indicadora]
    simp only [if_true]
    exact List.count_eq_one_of_mem hnd (List.mem_map_of_mem (fun c => c.id) hc0)

theorem abiertas_eq_suma (cs : List Celda) (hnd : (cs.map (fun c => c.id)).Nodup)
    (es : List Entrada)
    (href : ∀ e ∈ es, abierta e = true → ∃ c ∈ cs, e.CELDA_id = some c.id) :
    (es.filter abierta).length = (cs.map (fun c => abiertasEn es c.id)).sum := by
  induction es with
  | nil => simp [abiertasEn]
  | cons e es ih =>
    have ih1 := ih (fun x hx => href x (List.mem_cons_of_mem e hx))
    have hfun : (fun c : Celda => abiertasEn (e :: es) c.id) =
        (fun c : Celda => (if abierta e && e.CELDA_id == some c.id then 1 else 0) +
          abiertasEn es c.id) := by
      funext c
      exact abiertasEn_cons e es c.id
    rw [hfun, List.sum_map_add, suma_referencias cs hnd e (href e (List.mem_cons_self e es)), ← ih1]
    cases hab : abierta e
    · simp [List.filter_cons, hab]
    · simp [List.filter_cons, hab]; omega

theorem suma_eq_ocupadas (cs : List Celda) (n : Celda → Nat)
    (hiff : ∀ c ∈ cs, c.estado = "ocupado" ↔ n c = 1) (hle : ∀ c ∈ cs, n c ≤ 1) :
    (cs.map n).sum = (cs.filter (fun celda => celda.estado == "ocupado")).length := by
  induction cs with
  | nil => rfl
  | cons a l ih =>
    have ih1 := ih (fun c hc => hiff c (List.mem_cons_of_mem a hc))
      (fun c hc => hle c (List.mem_cons_of_mem a hc))
    have ha := hiff a (List.mem_cons_self a l)
    have hb := hle a (List.mem_cons_self a l)
    rw [List.map_cons, List.sum_cons, ih1]
    by_cases ho : a.estado = "ocupado"
    · have := ha.mp ho
      simp [List.filter_cons, ho]; omega
    · have hne : n a ≠ 1 := fun hh => ho (ha.mpr hh)
      simp [List.filter_cons, ho]; omega

theorem ocupadas_eq_abiertas (s : Store) (h : Coherente s) :
    (s.celdas.filter (fun celda => celda.estado == "ocupado")).length =
      (s.entradas.filter (fun e => e.fecha_salida.isNone)).length := by
  have h1 := abiertas_eq_suma s.celdas h.celdas_nodup s.entradas h.referencia
  have h2 := suma_eq_ocupadas s.celdas (fun c => abiertasEn s.entradas c.id) h.ocupado_iff
    h.a_lo_sumo_una
  rw [← h2, ← h1]
  rfl

/-- C5: in every store reachable from a freshly provisioned lot by entry and exit
operations, a cell is in state ocupado exactly when one open session references
it, and the ocupadas count answered by the cell handler equals the number of
records answered by the parked-vehicles handler. -/
theorem ocupado_ssi_una_sesion_abierta (toLocaleString : Int → String) (s0 s : Store)
    (h0 : Provisionado s0) (h : Alcanzable s0 s) :
    (∀ c ∈ s.celdas, c.estado = "ocupado" ↔ abiertasEn s.entradas c.id = 1) ∧
    ocupadasReportadas (getCeldasEstado s).1 =
      estacionadosReportados (getEstacionados toLocaleString s).1 ∧
    (s.conectado = true →
      (getCeldasEstado s).1.status = 200 ∧ (getEstacionados toLocaleString s).1.status = 200 ∧
      ocupadasReportadas (getCeldasEstado s).1 =
        some (s.entradas.filter (fun e => e.fecha_salida.isNone)).length) := by
  have hco := coherente_alcanzable s0 s (coherente_de_provisionado s0 h0) h
  have hcount := ocupadas_eq_abiertas s hco
  refine ⟨hco.ocupado_iff, ?_, ?_⟩
  · cases hc : s.conectado
    · rw [getCeldasEstado_caida s hc, getEstacionados_caida _ s hc]
      rfl
    · rw [getCeldasEstado_ok s hc, getEstacionados_ok _ s hc]
      simp only [ocupadasReportadas, estacionadosReportados, resumenCeldas, List.length_map]
      rw [hcount]
  · intro hc
    rw [getCeldasEstado_ok s hc, getEstacionados_ok _ s hc]
    refine ⟨rfl, rfl, ?_⟩
    simp only [ocupadasReportadas, resumenCeldas]
    rw [hcount]

/-! ## The theorems at sample inputs -/

theorem historial_relaciones_ausentes_witness :
    HistorialParqueo.findAll almacenEjemplo =
      (Except.ok ((almacenEjemplo.historial.insertionSort masReciente).map
        (incluirHistorial almacenEjemplo)), almacenEjemplo) ∧
    ∃ registros : List RegistroHistorial,
      (getHistorialCon HistorialParqueo.findAll almacenEjemplo).1 =
        ⟨200, Cuerpo.historial registros⟩ ∧
      List.Forall₂ (fun item r =>
        (∀ v, item.vehiculo = some v → r.placa_vehiculo = v.placa) ∧
        (item.vehiculo = none → r.placa_vehiculo = "N/A") ∧
        (∀ c, item.celda = some c → r.nombre_celda = c.nombre) ∧
        (item.celda = none → r.nombre_celda = "N/A") ∧
        (∀ u, item.usuario = some u →
          r.usuario_nombre = jsTrim (u.primer_nombre ++ " " ++ oVacio u.primer_apellido)) ∧
        (item.usuario = none → r.usuario_nombre = "N/A"))
        ((almacenEjemplo.historial.insertionSort masReciente).map (incluirHistorial almacenEjemplo))
        registros :=
  ⟨rfl, historial_relaciones_ausentes HistorialParqueo.findAll almacenEjemplo almacenEjemplo _ rfl⟩

theorem historial_uno_por_sesion_descendente_witness :
    almacenEjemplo.conectado = true ∧
    ∃ (filas : List HistorialParqueo) (registros : List RegistroHistorial),
      filas.Perm almacenEjemplo.historial ∧
      (getHistorial almacenEjemplo).1 = ⟨200, Cuerpo.historial registros⟩ ∧
      List.Forall₂ (fun fila r =>
        r.id = fila.id ∧ r.fecha_ingreso = fila.fecha_ingreso ∧
        r.fecha_salida = fila.fecha_salida ∧ r.tiempo_estadia = fila.tiempo_estadia) filas registros ∧
      (registros.map (fun r => r.fecha_ingreso)).Pairwise (fun a b => fechaLe b a = true) :=
  ⟨rfl, historial_uno_por_sesion_descendente almacenEjemplo rfl⟩

theorem estacionados_solo_abiertas_witness :
    almacenEjemplo.conectado = true ∧
    ∃ registros : List Estacionado,
      (getEstacionados (fun t => toString t) almacenEjemplo).1 =
        ⟨200, Cuerpo.estacionados registros⟩ ∧
      List.Forall₂ (fun e r =>
        r.id = e.id ∧
        (∀ v, (incluirEntrada almacenEjemplo e).vehiculoInfo = some v → r.placa = v.placa) ∧
        ((incluirEntrada almacenEjemplo e).vehiculoInfo = none → r.placa = "N/A") ∧
        (∀ c, (incluirEntrada almacenEjemplo e).celdaInfo = some c → r.celda = c.nombre) ∧
        ((incluirEntrada almacenEjemplo e).celdaInfo = none → r.celda = "N/A"))
        (almacenEjemplo.entradas.filter (fun e => e.fecha_salida = none)) registros :=
  ⟨rfl, estacionados_solo_abiertas (fun t => toString t) almacenEjemplo rfl⟩

theorem ocupado_ssi_una_sesion_abierta_witness :
    Provisionado almacenInicial ∧
    Alcanzable almacenInicial (registrarEntrada ⟨"abc123", "Carro", 0⟩ almacenInicial).2 ∧
    ((∀ c ∈ (registrarEntrada ⟨"abc123", "Carro", 0⟩ almacenInicial).2.celdas,
        c.estado = "ocupado" ↔
          abiertasEn (registrarEntrada ⟨"abc123", "Carro", 0⟩ almacenInicial).2.entradas c.id = 1) ∧
      ocupadasReportadas (getCeldasEstado (registrarEntrada ⟨"abc123", "Carro", 0⟩ almacenInicial).2).1 =
        estacionadosReportados
          (getEstacionados (fun t => toString t)
            (registrarEntrada ⟨"abc123", "Carro", 0⟩ almacenInicial).2).1 ∧
      ((registrarEntrada ⟨"abc123", "Carro", 0⟩ almacenInicial).2.conectado = true →
        (getCeldasEstado (registrarEntrada ⟨"abc123", "Carro", 0⟩ almacenInicial).2).1.status = 200 ∧
        (getEstacionados (fun t => toString t)
          (registrarEntrada ⟨"abc123", "Carro", 0⟩ almacenInicial).2).1.status = 200 ∧
        ocupadasReportadas (getCeldasEstado (registrarEntrada ⟨"abc123", "Carro", 0⟩ almacenInicial).2).1 =
          some ((registrarEntrada ⟨"abc123", "Carro", 0⟩ almacenInicial).2.entradas.filter
            (fun e => e.fecha_salida.isNone)).length)) :=
  ⟨⟨rfl, by decide, by decide⟩,
    Alcanzable.entrada almacenInicial ⟨"abc123", "Carro", 0⟩ Alcanzable.inicio,
    ocupado_ssi_una_sesion_abierta (fun t => toString t) almacenInicial _
      ⟨rfl, by decide, by decide⟩
      (Alcanzable.entrada almacenInicial ⟨"abc123", "Carro", 0⟩ Alcanzable.inicio)⟩

theorem celdas_estado_conteos_witness :
    almacenEjemplo.conectado = true ∧
    ∃ e : EstadoCeldas,
      (getCeldasEstado almacenEjemplo).1 = ⟨200, Cuerpo.estadoCeldas e⟩ ∧
      e.total = almacenEjemplo.celdas.length ∧
      List.Forall₂ (fun c d =>
        d.id = c.id ∧ d.nombre = c.nombre ∧ d.tipo = c.tipoVehiculo ∧ d.estado = c.estado)
        almacenEjemplo.celdas e.detalles ∧
      e.ocupadas + e.libres ≤ e.total ∧
      ((∀ c ∈ almacenEjemplo.celdas, c.estado = "ocupado" ∨ c.estado = "libre") →
        e.ocupadas + e.libres = e.total) :=
  ⟨rfl, celdas_estado_conteos almacenEjemplo rfl⟩

theorem migracion_solo_fechas_nulas_witness :
    almacenEjemplo.conectado = true ∧
    ((actualizarFechaIngreso 5000 almacenEjemplo).1 =
      some (almacenEjemplo.historial.filter (fun h => h.fecha_ingreso = none)).length ∧
    List.Forall₂ (fun h h1 =>
      (h.fecha_ingreso = none → h1 = { h with fecha_ingreso := some 5000 }) ∧
      (h.fecha_ingreso ≠ none → h1 = h)) almacenEjemplo.historial
      (actualizarFechaIngreso 5000 almacenEjemplo).2.historial ∧
    (∀ h1 ∈ (actualizarFechaIngreso 5000 almacenEjemplo).2.historial, h1.fecha_ingreso ≠ none) ∧
    (actualizarFechaIngreso 5000 almacenEjemplo).2 =
      { almacenEjemplo with historial := (actualizarFechaIngreso 5000 almacenEjemplo).2.historial } ∧
    actualizarFechaIngreso 9000 (actualizarFechaIngreso 5000 almacenEjemplo).2 =
      (some 0, (actualizarFechaIngreso 5000 almacenEjemplo).2)) :=
  ⟨rfl, migracion_solo_fechas_nulas 5000 9000 almacenEjemplo rfl⟩

/-- C6 (counterexample): a request without correo whose numero_documento is that
of a stored user is answered 500 by the catch block, not 409. -/
theorem registro_duplicado_sin_correo_500 :
    almacenEjemplo.conectado = true ∧
    (∃ u ∈ almacenEjemplo.usuarios,
      solicitudSinCorreo.correo = some u.correo ∨
        solicitudSinCorreo.numero_documento = some u.numero_documento) ∧
    postRegistro hashEjemplo solicitudSinCorreo almacenEjemplo =
      (⟨500, Cuerpo.mensaje "Error interno del servidor durante el registro."⟩, almacenEjemplo) ∧
    (postRegistro hashEjemplo solicitudSinCorreo almacenEjemplo).1.status ≠ 409 :=
  ⟨rfl, by decide, rfl, by decide⟩

theorem registro_duplicado_409_campos_presentes_witness :
    almacenEjemplo.conectado = true ∧
    solicitudDuplicada.correo = some "ana@x.co" ∧
    solicitudDuplicada.numero_documento = some "200" ∧
    (∃ u ∈ almacenEjemplo.usuarios, u.correo = "ana@x.co" ∨ u.numero_documento = "200") ∧
    ∀ (rol : Option String) (perfiles : List Perfil),
      postRegistro hashEjemplo { solicitudDuplicada with rol := rol }
          { almacenEjemplo with perfiles := perfiles } =
        (⟨409, Cuerpo.mensaje "El correo o el número de documento ya están registrados."⟩,
          { almacenEjemplo with perfiles := perfiles }) :=
  ⟨rfl, rfl, rfl, by decide,
    registro_duplicado_409_campos_presentes hashEjemplo solicitudDuplicada almacenEjemplo rfl
      "ana@x.co" "200" rfl rfl (by decide)⟩

/-- C7 (counterexample): a request of a new user whose role names a stored profile
but which carries no clave is answered 500 and creates no user, not 201; and a
request without rol, which names no profile, is answered 500, not 400. -/
theorem registro_sin_clave_o_sin_rol_500 :
    almacenEjemplo.conectado = true ∧
    (∀ u ∈ almacenEjemplo.usuarios,
      solicitudSinClave.correo ≠ some u.correo ∧
        solicitudSinClave.numero_documento ≠ some u.numero_documento) ∧
    (∃ p ∈ almacenEjemplo.perfiles, solicitudSinClave.rol = some p.nombre) ∧
    postRegistro hashEjemplo solicitudSinClave almacenEjemplo =
      (⟨500, Cuerpo.mensaje "Error interno del servidor durante el registro."⟩, almacenEjemplo) ∧
    (postRegistro hashEjemplo solicitudSinClave almacenEjemplo).1.status ≠ 201 ∧
    (∀ u ∈ almacenEjemplo.usuarios,
      solicitudSinRol.correo ≠ some u.correo ∧
        solicitudSinRol.numero_documento ≠ some u.numero_documento) ∧
    (∀ p ∈ almacenEjemplo.perfiles, solicitudSinRol.rol ≠ some p.nombre) ∧
    postRegistro hashEjemplo solicitudSinRol almacenEjemplo =
      (⟨500, Cuerpo.mensaje "Error interno del servidor durante el registro."⟩, almacenEjemplo) ∧
    (postRegistro hashEjemplo solicitudSinRol almacenEjemplo).1.status ≠ 400 :=
  ⟨rfl, by decide, by decide, rfl, by decide, by decide, by decide, rfl, by decide⟩

theorem registro_campos_presentes_201_o_400_witness :
    almacenEjemplo.conectado = true ∧
    solicitudEjemplo.correo = some "luis@x.co" ∧
    solicitudEjemplo.numero_documento = some "200" ∧
    solicitudEjemplo.clave = some "clave" ∧
    solicitudEjemplo.rol = some "Usuario" ∧
    (∀ u ∈ almacenEjemplo.usuarios, u.correo ≠ "luis@x.co" ∧ u.numero_documento ≠ "200") ∧
    (∀ p ∈ almacenEjemplo.perfiles, p.id ≠ 0) ∧
    ((∀ p, almacenEjemplo.perfiles.find? (fun p => p.nombre == "Usuario") = some p →
      solicitudEjemplo.primer_nombre ≠ none → solicitudEjemplo.segundo_nombre ≠ none →
      solicitudEjemplo.tipo_documento ≠ none → solicitudEjemplo.celular ≠ none →
      ∃ u : Usuario, u.PERFIL_id = p.id ∧
        postRegistro hashEjemplo solicitudEjemplo almacenEjemplo =
          (⟨201, Cuerpo.registro "Usuario registrado con éxito." u⟩,
            { almacenEjemplo with usuarios := almacenEjemplo.usuarios ++ [u] })) ∧
    ((postRegistro hashEjemplo solicitudEjemplo almacenEjemplo).1.status = 400 ↔
      ∀ p ∈ almacenEjemplo.perfiles, p.nombre ≠ "Usuario") ∧
    ((∀ p ∈ almacenEjemplo.perfiles, p.nombre ≠ "Usuario") →
      postRegistro hashEjemplo solicitudEjemplo almacenEjemplo =
        (⟨400, Cuerpo.mensaje "Rol de usuario inválido."⟩, almacenEjemplo))) :=
  ⟨rfl, rfl, rfl, rfl, rfl, by decide, by decide,
    registro_campos_presentes_201_o_400 hashEjemplo solicitudEjemplo almacenEjemplo rfl
      "luis@x.co" "200" "clave" "Usuario" rfl rfl rfl rfl (by decide) (by decide)⟩

/-- C9 (counterexample): with no clave in the body, a correo that matches no user
is answered 401 while a registered correo is answered 500, so the two answers
differ and tell whether the correo is registered. -/
theorem login_sin_clave_revela_correo :
    almacenEjemplo.conectado = true ∧
    (∀ x ∈ almacenEjemplo.usuarios, x.correo ≠ "nadie@x.co") ∧
    (∃ x ∈ almacenEjemplo.usuarios, x.correo = "ana@x.co") ∧
    (postLogin compareEjemplo (some "nadie@x.co") none almacenEjemplo).1 =
      ⟨401, Cuerpo.mensaje "Credenciales inválidas."⟩ ∧
    (postLogin compareEjemplo (some "ana@x.co") none almacenEjemplo).1 =
      ⟨500, Cuerpo.mensaje "Error interno del servidor durante el inicio de sesión."⟩ ∧
    (postLogin compareEjemplo (some "ana@x.co") none almacenEjemplo).1 ≠
      (postLogin compareEjemplo (some "nadie@x.co") none almacenEjemplo).1 :=
  ⟨rfl, by decide, by decide, rfl, rfl, by decide⟩

theorem login_clave_presente_no_revela_correo_witness :
    almacenEjemplo.conectado = true ∧
    (∀ x ∈ almacenEjemplo.usuarios, x.correo ≠ "nadie@x.co") ∧
    (∃ u, almacenEjemplo.usuarios.find? (fun x => x.correo == "ana@x.co") = some u ∧
      compareEjemplo "errada" u.clave = false) ∧
    (postLogin compareEjemplo (some "nadie@x.co") (some "secreta") almacenEjemplo).1 =
      ⟨401, Cuerpo.mensaje "Credenciales inválidas."⟩ ∧
    (postLogin compareEjemplo (some "ana@x.co") (some "errada") almacenEjemplo).1 =
      (postLogin compareEjemplo (some "nadie@x.co") (some "secreta") almacenEjemplo).1 ∧
    (∀ (t : Store) (correo clave : Option String),
      (postLogin compareEjemplo correo clave t).1.status = 200 →
      ∃ c k x, correo = some c ∧ clave = some k ∧
        t.usuarios.find? (fun y => y.correo == c) = some x ∧ compareEjemplo k x.clave = true) :=
  ⟨rfl, by decide, ⟨_, rfl, by decide⟩,
    login_clave_presente_no_revela_correo compareEjemplo almacenEjemplo rfl "nadie@x.co"
      (some "secreta") "ana@x.co" "errada" _ (by decide) rfl (by decide)⟩

end Parking
